import Mathlib

/-!
# PC hardware monitor: batch decoder, sensor registry and stream debugger

Shallow embedding of `MCUlibrary/src/hw_monitor.cpp` (`hw_monitor_init`,
`hw_monitor_parse`, `hw_monitor_get`) and of `processByte` and the read loop of
`loop()` from `MCUlibrary/src/usb_stream_debug.cpp`, with the constants and the
record layout of `MCUlibrary/hw_monitor.h`.

Conventions of the embedding
* a `uint8_t` read from a buffer is a `Byte` (`Fin 256`);
* a `float` is represented by its 32-bit pattern (`F32`); the union `conv`
  of `hw_monitor_parse` is a reinterpretation of four bytes, so no floating
  point arithmetic is involved;
* `uint32_t` / `size_t` / `uint8_t` counters are natural numbers, every
  increment is written with its explicit modulus;
* the global `hw_monitor` is passed in and returned explicitly;
* a memory access outside a buffer or outside `sensors[HW_MAX_SENSORS]`
  (and an exhausted loop budget) yields `none`.
-/

namespace HWMon

/-! ## Constants (`hw_monitor.h`) -/

/-- The C macro `HW_PROTO_START`. -/
def HW_PROTO_START : Nat := 0xAA

/-- The C macro `HW_PROTO_END`. -/
def HW_PROTO_END : Nat := 0x55

/-- The C macro `HW_PROTO_VERSION`. -/
def HW_PROTO_VERSION : Nat := 0x01

/-- The C macro `HW_MAX_SENSORS`, capacity of the `sensors` array. -/
def HW_MAX_SENSORS : Nat := 64

/-- A `uint8_t` value. -/
abbrev Byte := Fin 256

/-- A `float`, represented by its IEEE-754 single precision bit pattern. -/
abbrev F32 := Fin 4294967296

/-- Bit pattern of the literal `-999.0f`: sign 1, exponent 136, mantissa
`0x79C000` (999 = 1.111100111b * 2^9). -/
def HW_SENTINEL : F32 := 0xC479C000

/-! ## Data types -/

/-- The struct `hw_sensor_data_t`. -/
structure hw_sensor_data_t where
  id : Byte
  value : F32
  valid : Bool
  timestamp_ms : Int

/-- The monitor context (the global `hw_monitor`, of the type that
`hw_monitor.cpp` calls `HWMonitor` and `hw_monitor.h` declares as
`hw_monitor_t`): the fields that `hw_monitor.cpp` reads or writes, with
`last_update` for the field the header names `last_update_ms`. -/
structure HWMonitor where
  sensors : Fin HW_MAX_SENSORS → hw_sensor_data_t
  sensor_count : Nat
  packets_ok : Nat
  packets_err : Nat
  last_update : Nat

/-! ## `hw_monitor_init` -/

/-- The call `memset(&hw_monitor, 0, sizeof(hw_monitor))`: every field is
zero (`0.0f` has the bit pattern 0, `false` is 0). -/
def memset_zero (_hw : HWMonitor) : HWMonitor :=
  { sensors := fun _ => { id := 0, value := 0, valid := false, timestamp_ms := 0 }
    sensor_count := 0
    packets_ok := 0
    packets_err := 0
    last_update := 0 }

/-- The `for` loop of `hw_monitor_init`, from the value `i` of the loop
variable on: slot `i` gets `id = 0xFF`, `value = -999.0f`, `valid = false`. -/
def init_loop (i : Nat) (sensors : Fin HW_MAX_SENSORS → hw_sensor_data_t) :
    Fin HW_MAX_SENSORS → hw_sensor_data_t :=
  if h : i < HW_MAX_SENSORS then
    init_loop (i + 1) (Function.update sensors ⟨i, h⟩
      { sensors ⟨i, h⟩ with id := 0xFF, value := HW_SENTINEL, valid := false })
  else
    sensors
termination_by HW_MAX_SENSORS - i

/-- The function `hw_monitor_init`: `memset` to zero, then the loop over all
slots. -/
def hw_monitor_init (hw : HWMonitor) : HWMonitor :=
  { memset_zero hw with sensors := init_loop 0 (memset_zero hw).sensors }

/-! ## `hw_monitor_parse` -/

/-- The union `conv`: bytes `b[0..3]` read back as the `float` `f`
(little-endian target). -/
def conv_f (b0 b1 b2 b3 : Byte) : F32 :=
  ⟨b0.val + 2 ^ 8 * b1.val + 2 ^ 16 * b2.val + 2 ^ 24 * b3.val, by omega⟩

/-- The expression `3 + (count * 5) + 3` converted to `size_t` (32 bits). -/
def expected_len (count : Byte) : Nat :=
  (3 + (count.val * 5) + 3) % 4294967296

/-- The three assignments to `hw_monitor.sensors[i]` in the loop body; `none`
when `i` is not an index of the array. -/
def store_sensor (sensors : Fin HW_MAX_SENSORS → hw_sensor_data_t) (i : Nat)
    (id : Byte) (value : F32) : Option (Fin HW_MAX_SENSORS → hw_sensor_data_t) :=
  if h : i < HW_MAX_SENSORS then
    some (Function.update sensors ⟨i, h⟩
      { sensors ⟨i, h⟩ with id := id, value := value, valid := true })
  else
    none

/-- The `for` loop of `hw_monitor_parse`, with loop variables `i` (`uint8_t`)
and `offset` (`size_t`). The first argument bounds the number of evaluations
of the loop condition. -/
def parse_loop (data : List Byte) (count : Byte) :
    Nat → Nat → Nat → (Fin HW_MAX_SENSORS → hw_sensor_data_t) →
      Option (Fin HW_MAX_SENSORS → hw_sensor_data_t)
  | 0, _, _, _ => none
  | fuel + 1, i, offset, sensors =>
    if i < count.val ∧ i < HW_MAX_SENSORS then
      (data[offset]?).bind fun id =>
      (data[offset + 1]?).bind fun b0 =>
      (data[offset + 2]?).bind fun b1 =>
      (data[offset + 3]?).bind fun b2 =>
      (data[offset + 4]?).bind fun b3 =>
      (store_sensor sensors i id (conv_f b0 b1 b2 b3)).bind fun sensors' =>
      parse_loop data count fuel ((i + 1) % 256) ((offset + 5) % 4294967296) sensors'
    else
      some sensors

/-- The function `hw_monitor_parse(data, len)`. The argument `data` is `none`
for a null pointer and otherwise the `len` bytes of the buffer; `millis` is
the value returned by `millis()`. The result is the returned `bool` and the
new value of `hw_monitor`. -/
def hw_monitor_parse (hw : HWMonitor) (millis : Nat) (data : Option (List Byte)) :
    Option (Bool × HWMonitor) :=
  match data with
  | none => some (false, hw)
  | some d =>
    if d.length < 6 then some (false, hw) else
    (d[0]?).bind fun d0 =>
    if d0.val ≠ HW_PROTO_START then some (false, hw) else
    (d[1]?).bind fun d1 =>
    if d1.val ≠ HW_PROTO_VERSION then some (false, hw) else
    (d[2]?).bind fun count =>
    if d.length < expected_len count then some (false, hw) else
    (d[expected_len count - 1]?).bind fun e =>
    if e.val ≠ HW_PROTO_END then
      some (false, { hw with packets_err := (hw.packets_err + 1) % 4294967296 })
    else
      (parse_loop d count (HW_MAX_SENSORS + 1) 0 3 hw.sensors).bind fun sensors =>
      some (true,
        { hw with
          sensors := sensors
          sensor_count := count.val
          packets_ok := (hw.packets_ok + 1) % 4294967296
          last_update := millis })

/-! ## `hw_monitor_get` -/

/-- The `for` loop of `hw_monitor_get` followed by the final `return`; the
first argument bounds the number of evaluations of the loop condition. A read
of `sensors[i]` with `i` outside the array yields `none`. -/
def get_loop (hw : HWMonitor) (id : Byte) : Nat → Nat → Option F32
  | 0, _ => none
  | fuel + 1, i =>
    if i < hw.sensor_count then
      if h : i < HW_MAX_SENSORS then
        if (hw.sensors ⟨i, h⟩).id = id ∧ (hw.sensors ⟨i, h⟩).valid = true then
          some (hw.sensors ⟨i, h⟩).value
        else
          get_loop hw id fuel (i + 1)
      else
        none
    else
      some HW_SENTINEL

/-- The function `hw_monitor_get(id)`: the returned `float` together with the
value of `hw_monitor` after the call. -/
def hw_monitor_get (hw : HWMonitor) (id : Byte) : Option (F32 × HWMonitor) :=
  (get_loop hw id (hw.sensor_count + 1) 0).map fun v => (v, hw)

/-! ## `processByte` (`usb_stream_debug.cpp`) -/

/-- The enum `State` of the stream debugger. -/
inductive State where
  | IDLE | GOT_START | GOT_VER | GOT_COUNT | IN_DATA | IN_CRC1 | IN_CRC2 | GOT_END
  deriving DecidableEq, Repr

/-- The global variables of `usb_stream_debug.cpp`. -/
structure StreamDebug where
  state : State
  sensor_count : Nat
  current_sensor : Nat
  byte_in_sensor : Nat
  packet_size : Nat
  total_bytes : Nat
  valid_packets : Nat
  invalid_packets : Nat
  max_sensor_count : Nat
  deriving DecidableEq, Repr

/-- The function `processByte(b)`; the calls to `Serial.print` produce output
only and are left out. -/
def processByte (s : StreamDebug) (b : Byte) : StreamDebug :=
  let s := { s with total_bytes := (s.total_bytes + 1) % 4294967296 }
  match s.state with
  | State.IDLE =>
    if b.val = 0xAA then { s with state := State.GOT_START, packet_size := 1 } else s
  | State.GOT_START =>
    let s := { s with packet_size := (s.packet_size + 1) % 4294967296 }
    if b.val = 0x01 then
      { s with state := State.GOT_VER }
    else
      { s with state := State.IDLE, invalid_packets := (s.invalid_packets + 1) % 4294967296 }
  | State.GOT_VER =>
    let s := { s with
      packet_size := (s.packet_size + 1) % 4294967296
      sensor_count := b.val
      current_sensor := 0
      byte_in_sensor := 0
      state := State.IN_DATA }
    let s := if s.sensor_count > s.max_sensor_count then
      { s with max_sensor_count := s.sensor_count } else s
    if s.sensor_count = 0 ∨ s.sensor_count > 255 then
      { s with state := State.IDLE, invalid_packets := (s.invalid_packets + 1) % 4294967296 }
    else s
  | State.GOT_COUNT => s
  | State.IN_DATA =>
    let s := { s with
      packet_size := (s.packet_size + 1) % 4294967296
      byte_in_sensor := (s.byte_in_sensor + 1) % 256 }
    if s.byte_in_sensor = 5 then
      let s := { s with current_sensor := (s.current_sensor + 1) % 256, byte_in_sensor := 0 }
      if s.current_sensor ≥ s.sensor_count then { s with state := State.IN_CRC1 } else s
    else s
  | State.IN_CRC1 =>
    { s with packet_size := (s.packet_size + 1) % 4294967296, state := State.IN_CRC2 }
  | State.IN_CRC2 =>
    { s with packet_size := (s.packet_size + 1) % 4294967296, state := State.GOT_END }
  | State.GOT_END =>
    let s := { s with packet_size := (s.packet_size + 1) % 4294967296 }
    let s := if b.val = 0x55 then
      { s with valid_packets := (s.valid_packets + 1) % 4294967296 }
    else
      { s with invalid_packets := (s.invalid_packets + 1) % 4294967296 }
    { s with state := State.IDLE }

/-! ## Auxiliary definitions used to state the results -/

/-- The slot written by the loop body of `hw_monitor_parse` for record `j` of
the buffer `d`: new `id`, `value` and `valid`, the time stamp of the slot is
kept. -/
def decoded_slot (d : List Byte) (old : hw_sensor_data_t) (j : Nat) : hw_sensor_data_t :=
  { old with
    id := d.getD (3 + 5 * j) 0
    value := conv_f (d.getD (4 + 5 * j) 0) (d.getD (5 + 5 * j) 0)
      (d.getD (6 + 5 * j) 0) (d.getD (7 + 5 * j) 0)
    valid := true }

/-- The array `sensors` after the records `lo .. hi - 1` of `d` have been
stored in the slots of the same index. -/
def decoded (d : List Byte) (sensors : Fin HW_MAX_SENSORS → hw_sensor_data_t)
    (lo hi : Nat) : Fin HW_MAX_SENSORS → hw_sensor_data_t :=
  fun j => if lo ≤ j.val ∧ j.val < hi then decoded_slot d (sensors j) j.val else sensors j

/-- Outcome of `hw_monitor_parse` on a non-null buffer, written without the
checked memory accesses; `hw_monitor_parse_eq` shows that the code computes it. -/
def parse_result (hw : HWMonitor) (millis : Nat) (d : List Byte) : Bool × HWMonitor :=
  if d.length < 6 then (false, hw)
  else if (d.getD 0 0).val ≠ 0xAA then (false, hw)
  else if (d.getD 1 0).val ≠ 0x01 then (false, hw)
  else if d.length < 6 + 5 * (d.getD 2 0).val then (false, hw)
  else if (d.getD (5 + 5 * (d.getD 2 0).val) 0).val ≠ 0x55 then
    (false, { hw with packets_err := (hw.packets_err + 1) % 4294967296 })
  else
    (true,
      { hw with
        sensors := decoded d hw.sensors 0 (min (d.getD 2 0).val HW_MAX_SENSORS)
        sensor_count := (d.getD 2 0).val
        packets_ok := (hw.packets_ok + 1) % 4294967296
        last_update := millis })

/-! ## Concrete states and frames -/

/-- The monitor after `hw_monitor_init` at start-up (static storage is zero). -/
def boot : HWMonitor :=
  hw_monitor_init
    { sensors := fun _ => { id := 0, value := 0, valid := false, timestamp_ms := 0 }
      sensor_count := 0
      packets_ok := 0
      packets_err := 0
      last_update := 0 }

/-- Scenario 1: two records, `0x01 -> 45.5` (`0x42360000`) and
`0x20 -> 62.0` (`0x42780000`). -/
def scenario1 : List Byte :=
  [0xAA, 0x01, 0x02, 0x01, 0x00, 0x00, 0x36, 0x42, 0x20, 0x00, 0x00, 0x78, 0x42,
    0x00, 0x00, 0x55]

/-- Scenario 2: the bytes of scenario 1 with the end marker replaced by `0x00`. -/
def scenario2 : List Byte :=
  [0xAA, 0x01, 0x02, 0x01, 0x00, 0x00, 0x36, 0x42, 0x20, 0x00, 0x00, 0x78, 0x42,
    0x00, 0x00, 0x00]

/-- Scenario 3: the frame with no record. -/
def empty_frame : List Byte := [0xAA, 0x01, 0x00, 0x00, 0x00, 0x55]

/-- A well-formed frame with 65 records (331 bytes): records 0..63 are
`0x00 -> 0.0`, record 64 is `0x42 -> 45.5`. -/
def frame65 : List Byte :=
  [0xAA, 0x01, 65] ++ List.replicate 320 0 ++ [0x42, 0x00, 0x00, 0x36, 0x42] ++ [0x00, 0x00, 0x55]

/-- The monitor after scenario 1 has been parsed from the start-up state at
time 1000. -/
def after_scenario1 : HWMonitor := (parse_result boot 1000 scenario1).2

/-- The monitor after `frame65` has been parsed from the start-up state at
time 1000. -/
def after_frame65 : HWMonitor := (parse_result boot 1000 frame65).2

/-- The monitor states reachable from `hw_monitor_init` by calls of
`hw_monitor_parse`. -/
inductive Reachable : HWMonitor → Prop where
  | init (hw : HWMonitor) : Reachable (hw_monitor_init hw)
  | parse (hw : HWMonitor) (millis : Nat) (data : Option (List Byte)) (r : Bool)
      (m' : HWMonitor) : Reachable hw → hw_monitor_parse hw millis data = some (r, m') →
      Reachable m'

/-- A buffer whose first byte is not the start marker. -/
def bad_start : List Byte := [0x00, 0x01, 0x00, 0x00, 0x00, 0x55]

/-- The bytes of scenario 1 with the two reserved bytes set to `12 34`. -/
def scenario1_reserved : List Byte :=
  [0xAA, 0x01, 0x02, 0x01, 0x00, 0x00, 0x36, 0x42, 0x20, 0x00, 0x00, 0x78, 0x42,
    0x12, 0x34, 0x55]

/-- A stream debugger state waiting for the first reserved byte. -/
def in_crc1 : StreamDebug :=
  { state := State.IN_CRC1, sensor_count := 2, current_sensor := 2, byte_in_sensor := 0,
    packet_size := 13, total_bytes := 13, valid_packets := 0, invalid_packets := 0,
    max_sensor_count := 2 }

/-- The loop `while (USBSerial.available()) processByte(USBSerial.read());`
of `loop()`: the bytes available in one call are processed in order. -/
def feed (s : StreamDebug) (bytes : List Byte) : StreamDebug :=
  bytes.foldl processByte s

/-- Successive passes through `loop()`, each with its own chunk of bytes. -/
def feed_chunks (s : StreamDebug) (chunks : List (List Byte)) : StreamDebug :=
  chunks.foldl feed s

/-- The wire layout of a frame: start marker, version, count byte, the record
bytes, two reserved bytes, end marker. It is well formed when `records` has
`5 * N` bytes. -/
def wire_frame (N : Byte) (records : List Byte) (c1 c2 : Byte) : List Byte :=
  [0xAA, 0x01, N] ++ records ++ [c1, c2, 0x55]

/-- The stream debugger after the header `AA 01 N` and `j` record bytes,
started from the idle state `s`. -/
def rec_state (s : StreamDebug) (N : Byte) (j : Nat) : StreamDebug :=
  { state := if 5 * N.val ≤ j then State.IN_CRC1 else State.IN_DATA
    sensor_count := N.val
    current_sensor := j / 5
    byte_in_sensor := j % 5
    packet_size := 3 + j
    total_bytes := (s.total_bytes + 3 + j) % 4294967296
    valid_packets := s.valid_packets
    invalid_packets := s.invalid_packets
    max_sensor_count := if N.val > s.max_sensor_count then N.val else s.max_sensor_count }

/-- The stream debugger after a whole frame with count byte `N`, started from
the idle state `s`. -/
def stream_accepted (s : StreamDebug) (N : Byte) : StreamDebug :=
  { state := State.IDLE
    sensor_count := N.val
    current_sensor := N.val
    byte_in_sensor := 0
    packet_size := 6 + 5 * N.val
    total_bytes := (s.total_bytes + (6 + 5 * N.val)) % 4294967296
    valid_packets := (s.valid_packets + 1) % 4294967296
    invalid_packets := s.invalid_packets
    max_sensor_count := if N.val > s.max_sensor_count then N.val else s.max_sensor_count }

/-- The globals of `usb_stream_debug.cpp` with their initial values. -/
def idle0 : StreamDebug :=
  { state := State.IDLE, sensor_count := 0, current_sensor := 0, byte_in_sensor := 0,
    packet_size := 0, total_bytes := 0, valid_packets := 0, invalid_packets := 0,
    max_sensor_count := 0 }

/-- The record bytes of scenario 1. -/
def scenario1_records : List Byte :=
  [0x01, 0x00, 0x00, 0x36, 0x42, 0x20, 0x00, 0x00, 0x78, 0x42]

/-- The frame `AA 01 01 | 01 00 00 36 42 | 00 00 | 55` with one record. -/
def one_record_frame : List Byte :=
  [0xAA, 0x01, 0x01, 0x01, 0x00, 0x00, 0x36, 0x42, 0x00, 0x00, 0x55]

/-! ## The loop of `hw_monitor_parse` -/

theorem getElem?_eq_some_getD (d : List Byte) (k : Nat) (h : k < d.length) :
    d[k]? = some (d.getD k 0) := by
  rw [List.getElem?_eq_getElem h, List.getD_eq_getElem d 0 h]

theorem decoded_empty (d : List Byte) (s : Fin HW_MAX_SENSORS → hw_sensor_data_t) (n : Nat) :
    decoded d s n n = s := by
  funext j
  have : ¬ (n ≤ j.val ∧ j.val < n) := by omega
  simp [decoded, this]

theorem decoded_step (d : List Byte) (s : Fin HW_MAX_SENSORS → hw_sensor_data_t)
    (i n : Nat) (hi : i < HW_MAX_SENSORS) (hin : i < n) :
    decoded d (Function.update s ⟨i, hi⟩ (decoded_slot d (s ⟨i, hi⟩) i)) (i + 1) n
      = decoded d s i n := by
  funext j
  by_cases hj : j = ⟨i, hi⟩
  · subst hj
    have h1 : ¬ (i + 1 ≤ i ∧ i < n) := by omega
    have h2 : i ≤ i ∧ i < n := ⟨le_refl i, hin⟩
    simp [decoded, h1, h2]
  · have hne : j.val ≠ i := fun h => hj (Fin.ext h)
    by_cases hc : i + 1 ≤ j.val ∧ j.val < n
    · have hc2 : i ≤ j.val ∧ j.val < n := ⟨by omega, hc.2⟩
      simp [decoded, hc, hc2, Function.update_noteq hj]
    · have hc2 : ¬ (i ≤ j.val ∧ j.val < n) := by omega
      simp [decoded, hc, hc2, Function.update_noteq hj]

/-- Closed form of the loop: started at `i` with `offset = 3 + 5 * i` on a
buffer that holds the whole frame, it stores the records `i .. min count 64 - 1`. -/
theorem parse_loop_eq (d : List Byte) (count : Byte) (hlen : 6 + 5 * count.val ≤ d.length) :
    ∀ (fuel i : Nat) (s : Fin HW_MAX_SENSORS → hw_sensor_data_t),
      i ≤ min count.val HW_MAX_SENSORS → min count.val HW_MAX_SENSORS - i < fuel →
      parse_loop d count fuel i (3 + 5 * i) s
        = some (decoded d s i (min count.val HW_MAX_SENSORS)) := by
  intro fuel
  induction fuel with
  | zero => intro i s _ hf; omega
  | succ f ih =>
    intro i s hi hf
    rw [parse_loop]
    by_cases hc : i < count.val ∧ i < HW_MAX_SENSORS
    · have hM : HW_MAX_SENSORS = 64 := rfl
      have hcount := count.isLt
      rw [if_pos hc]
      rw [getElem?_eq_some_getD d (3 + 5 * i) (by omega),
        getElem?_eq_some_getD d (3 + 5 * i + 1) (by omega),
        getElem?_eq_some_getD d (3 + 5 * i + 2) (by omega),
        getElem?_eq_some_getD d (3 + 5 * i + 3) (by omega),
        getElem?_eq_some_getD d (3 + 5 * i + 4) (by omega)]
      simp only [Option.some_bind, store_sensor, dif_pos hc.2]
      have e1 : (i + 1) % 256 = i + 1 := Nat.mod_eq_of_lt (by omega)
      have e2 : (3 + 5 * i + 5) % 4294967296 = 3 + 5 * (i + 1) := by omega
      rw [e1, e2, ih (i + 1) _ (by omega) (by omega)]
      have e3 : 3 + 5 * i + 1 = 4 + 5 * i := by omega
      have e4 : 3 + 5 * i + 2 = 5 + 5 * i := by omega
      have e5 : 3 + 5 * i + 3 = 6 + 5 * i := by omega
      have e6 : 3 + 5 * i + 4 = 7 + 5 * i := by omega
      rw [e3, e4, e5, e6]
      exact congrArg some (decoded_step d s i _ hc.2 (by omega))
    · rw [if_neg hc]
      have hM : HW_MAX_SENSORS = 64 := rfl
      have : i = min count.val HW_MAX_SENSORS := by omega
      rw [← this, decoded_empty]

/-! ## Closed form of `hw_monitor_parse` -/

theorem expected_len_eq (count : Byte) : expected_len count = 6 + 5 * count.val := by
  have := count.isLt
  unfold expected_len
  omega

/-- On a non-null buffer `hw_monitor_parse` never leaves a buffer or the
array, and its outcome is `parse_result`. -/
theorem hw_monitor_parse_eq (hw : HWMonitor) (millis : Nat) (d : List Byte) :
    hw_monitor_parse hw millis (some d) = some (parse_result hw millis d) := by
  unfold hw_monitor_parse parse_result
  by_cases h6 : d.length < 6
  · simp [h6]
  · simp only [if_neg h6]
    rw [getElem?_eq_some_getD d 0 (by omega), getElem?_eq_some_getD d 1 (by omega),
      getElem?_eq_some_getD d 2 (by omega)]
    simp only [Option.some_bind, HW_PROTO_START, HW_PROTO_VERSION, HW_PROTO_END]
    by_cases h0 : (d.getD 0 0).val ≠ 0xAA
    · simp only [if_pos h0]
    · simp only [if_neg h0]
      by_cases h1 : (d.getD 1 0).val ≠ 0x01
      · simp only [if_pos h1]
      · simp only [if_neg h1, expected_len_eq]
        by_cases hl : d.length < 6 + 5 * (d.getD 2 0).val
        · simp only [if_pos hl]
        · simp only [if_neg hl]
          have e : 6 + 5 * (d.getD 2 0).val - 1 = 5 + 5 * (d.getD 2 0).val := by omega
          rw [e, getElem?_eq_some_getD d (5 + 5 * (d.getD 2 0).val) (by omega)]
          simp only [Option.some_bind]
          by_cases he : (d.getD (5 + 5 * (d.getD 2 0).val) 0).val ≠ 0x55
          · simp only [if_pos he]
          · simp only [if_neg he]
            have hM : HW_MAX_SENSORS = 64 := rfl
            have hloop := parse_loop_eq d (d.getD 2 0) (by omega) (HW_MAX_SENSORS + 1) 0
              hw.sensors (by omega) (by omega)
            simp only [Nat.mul_zero, Nat.add_zero] at hloop
            rw [hloop]
            rfl

/-! ## The loop of `hw_monitor_get` -/

/-- The scan finds the first matching valid slot `k`. -/
theorem get_loop_found (hw : HWMonitor) (id : Byte) (k : Nat) (hk : k < HW_MAX_SENSORS)
    (hkc : k < hw.sensor_count)
    (hid : (hw.sensors ⟨k, hk⟩).id = id) (hv : (hw.sensors ⟨k, hk⟩).valid = true)
    (hfirst : ∀ (j : Nat) (hj : j < HW_MAX_SENSORS), j < k →
      ¬ ((hw.sensors ⟨j, hj⟩).id = id ∧ (hw.sensors ⟨j, hj⟩).valid = true)) :
    ∀ (fuel i : Nat), i ≤ k → k - i < fuel →
      get_loop hw id fuel i = some (hw.sensors ⟨k, hk⟩).value := by
  intro fuel
  induction fuel with
  | zero => intro i _ hf; omega
  | succ f ih =>
    intro i hi hf
    rw [get_loop]
    have hic : i < hw.sensor_count := by omega
    have hiM : i < HW_MAX_SENSORS := by omega
    rw [if_pos hic, dif_pos hiM]
    by_cases hik : i = k
    · subst hik
      rw [if_pos ⟨hid, hv⟩]
    · rw [if_neg (hfirst i hiM (by omega))]
      exact ih (i + 1) (by omega) (by omega)

/-- The scan reaches the end of `[0, sensor_count)` without a match. -/
theorem get_loop_absent (hw : HWMonitor) (id : Byte)
    (hc : hw.sensor_count ≤ HW_MAX_SENSORS)
    (habs : ∀ (j : Nat) (hj : j < HW_MAX_SENSORS), j < hw.sensor_count →
      ¬ ((hw.sensors ⟨j, hj⟩).id = id ∧ (hw.sensors ⟨j, hj⟩).valid = true)) :
    ∀ (fuel i : Nat), i ≤ hw.sensor_count → hw.sensor_count - i < fuel →
      get_loop hw id fuel i = some HW_SENTINEL := by
  intro fuel
  induction fuel with
  | zero => intro i _ hf; omega
  | succ f ih =>
    intro i hi hf
    rw [get_loop]
    by_cases hic : i < hw.sensor_count
    · have hiM : i < HW_MAX_SENSORS := by omega
      rw [if_pos hic, dif_pos hiM, if_neg (habs i hiM hic)]
      exact ih (i + 1) (by omega) (by omega)
    · rw [if_neg hic]

/-- The scan runs past the end of the array when `sensor_count` exceeds the
capacity and no slot of the array matches. -/
theorem get_loop_outside (hw : HWMonitor) (id : Byte)
    (hc : HW_MAX_SENSORS < hw.sensor_count)
    (habs : ∀ (j : Fin HW_MAX_SENSORS),
      ¬ ((hw.sensors j).id = id ∧ (hw.sensors j).valid = true)) :
    ∀ (fuel i : Nat), i ≤ HW_MAX_SENSORS → get_loop hw id fuel i = none := by
  intro fuel
  induction fuel with
  | zero => intro i _; rfl
  | succ f ih =>
    intro i hi
    rw [get_loop]
    by_cases hiM : i < HW_MAX_SENSORS
    · rw [if_pos (by omega), dif_pos hiM, if_neg (habs ⟨i, hiM⟩)]
      exact ih (i + 1) (by omega)
    · rw [if_pos (by omega), dif_neg hiM]

/-- The lookup returns the sentinel when no slot of `[0, sensor_count)` matches. -/
theorem hw_monitor_get_absent (hw : HWMonitor) (id : Byte)
    (hc : hw.sensor_count ≤ HW_MAX_SENSORS)
    (habs : ∀ (j : Nat) (hj : j < HW_MAX_SENSORS), j < hw.sensor_count →
      ¬ ((hw.sensors ⟨j, hj⟩).id = id ∧ (hw.sensors ⟨j, hj⟩).valid = true)) :
    hw_monitor_get hw id = some (HW_SENTINEL, hw) := by
  unfold hw_monitor_get
  rw [get_loop_absent hw id hc habs _ 0 (Nat.zero_le _) (by omega)]
  rfl

/-! ## Facts about the concrete frames -/

theorem getD_of_getElem? (d : List Byte) (k : Nat) (b : Byte) (h : d[k]? = some b) :
    d.getD k 0 = b := by
  rw [List.getD_eq_getElem?_getD, h]
  rfl

theorem frame65_length : frame65.length = 331 := by
  simp only [frame65, List.length_append, List.length_replicate, List.length_cons,
    List.length_nil]

set_option maxRecDepth 100000 in
theorem frame65_ids (j : Fin HW_MAX_SENSORS) : frame65.getD (3 + 5 * j.val) 0 = 0 := by
  revert j
  decide

theorem frame65_accepted (hw : HWMonitor) (millis : Nat) :
    parse_result hw millis frame65 =
      (true,
        { hw with
          sensors := decoded frame65 hw.sensors 0 HW_MAX_SENSORS
          sensor_count := 65
          packets_ok := (hw.packets_ok + 1) % 4294967296
          last_update := millis }) := by
  have h2 : frame65.getD 2 0 = 65 := by rfl
  have h0 : frame65.getD 0 0 = 0xAA := by rfl
  have h1 : frame65.getD 1 0 = 0x01 := by rfl
  have he : frame65.getD 330 0 = 0x55 := by rfl
  unfold parse_result
  rw [h2, h0, h1, frame65_length]
  have e65 : ((65 : Byte)).val = 65 := rfl
  simp only [e65]
  rw [he]
  rfl

/-- Outcome of `hw_monitor_parse` on a buffer that passes all five checks. -/
theorem parse_result_accept (hw : HWMonitor) (millis : Nat) (d : List Byte) (N : Byte)
    (hlen : 6 + 5 * N.val ≤ d.length)
    (h0 : d[0]? = some 0xAA) (h1 : d[1]? = some 0x01) (h2 : d[2]? = some N)
    (hend : d[5 + 5 * N.val]? = some 0x55) :
    parse_result hw millis d =
      (true,
        { hw with
          sensors := decoded d hw.sensors 0 (min N.val HW_MAX_SENSORS)
          sensor_count := N.val
          packets_ok := (hw.packets_ok + 1) % 4294967296
          last_update := millis }) := by
  have g0 := getD_of_getElem? d 0 _ h0
  have g1 := getD_of_getElem? d 1 _ h1
  have g2 := getD_of_getElem? d 2 _ h2
  have ge := getD_of_getElem? d _ _ hend
  unfold parse_result
  rw [g0, g1, g2, ge]
  have hl6 : ¬ d.length < 6 := by omega
  have hlN : ¬ d.length < 6 + 5 * N.val := by omega
  rw [if_neg hl6, if_neg hlN]
  rfl

/-- Reading a field of a slot written by the loop. -/
theorem decoded_apply_lt (d : List Byte) (s : Fin HW_MAX_SENSORS → hw_sensor_data_t)
    (n : Nat) (j : Fin HW_MAX_SENSORS) (h : j.val < n) :
    decoded d s 0 n j = decoded_slot d (s j) j.val := by
  have hc : 0 ≤ j.val ∧ j.val < n := ⟨Nat.zero_le _, h⟩
  simp only [decoded, if_pos hc]

theorem decoded_apply_ge (d : List Byte) (s : Fin HW_MAX_SENSORS → hw_sensor_data_t)
    (n : Nat) (j : Fin HW_MAX_SENSORS) (h : n ≤ j.val) :
    decoded d s 0 n j = s j := by
  have hc : ¬ (0 ≤ j.val ∧ j.val < n) := by omega
  simp only [decoded, if_neg hc]

/-! ## C1: committing the records of a valid frame -/

/-- C1 (as stated, refuted): the frame `frame65` is valid with `N = 65`
(length `6 + 5 * 65`, start, version and end marker in place) and its record 64
has id `0x42`; `hw_monitor_parse` accepts it from the start-up state, yet no
slot of the registry holds id `0x42` afterwards: the 65th reading is not
committed (the array has 64 slots). -/
theorem C1_counterexample :
    6 + 5 * 65 ≤ frame65.length ∧ frame65[0]? = some 0xAA ∧ frame65[1]? = some 0x01 ∧
    frame65[2]? = some 65 ∧ frame65[5 + 5 * 65]? = some 0x55 ∧
    frame65[3 + 5 * 64]? = some 0x42 ∧
    ∃ m', hw_monitor_parse boot 1000 (some frame65) = some (true, m') ∧
      m'.sensor_count = 65 ∧
      ∀ j : Fin HW_MAX_SENSORS, (m'.sensors j).id ≠ 0x42 := by
  have hget : ∀ k, k < 331 → frame65[k]? = some (frame65.getD k 0) := fun k hk =>
    getElem?_eq_some_getD frame65 k (by rw [frame65_length]; exact hk)
  refine ⟨by rw [frame65_length], ?_, ?_, ?_, ?_, ?_, ?_⟩
  · rw [hget 0 (by decide)]; rfl
  · rw [hget 1 (by decide)]; rfl
  · rw [hget 2 (by decide)]; rfl
  · rw [hget (5 + 5 * 65) (by decide)]; rfl
  · rw [hget (3 + 5 * 64) (by decide)]; rfl
  refine ⟨_, by rw [hw_monitor_parse_eq, frame65_accepted], rfl, ?_⟩
  intro j
  have hj : decoded frame65 boot.sensors 0 HW_MAX_SENSORS j
      = decoded_slot frame65 (boot.sensors j) j.val := decoded_apply_lt _ _ _ j j.isLt
  show (decoded frame65 boot.sensors 0 HW_MAX_SENSORS j).id ≠ 0x42
  rw [hj]
  show frame65.getD (3 + 5 * j.val) 0 ≠ 0x42
  rw [frame65_ids j]
  decide

/-- C1 (amended): for every prior state and every valid frame with
`N = data[2]` (length at least `6 + 5 N`, `data[0] = 0xAA`, `data[1] = 0x01`,
`data[5 + 5 N] = 0x55`), `hw_monitor_parse` returns true; every slot
`i < min N 64` has `id = data[3 + 5 i]`, `valid = true` and the value whose
32-bit pattern is the little-endian combination of `data[4 + 5 i .. 7 + 5 i]`;
the slots from `min N 64` on are untouched; `packets_ok` is incremented by
one (mod 2^32), `last_update` is the current time, and `sensor_count = N`
when `N ≤ 64`. -/
theorem C1_parse_commits_records (hw : HWMonitor) (millis : Nat) (d : List Byte) (N : Byte)
    (hlen : 6 + 5 * N.val ≤ d.length)
    (h0 : d[0]? = some 0xAA) (h1 : d[1]? = some 0x01) (h2 : d[2]? = some N)
    (hend : d[5 + 5 * N.val]? = some 0x55) :
    ∃ m', hw_monitor_parse hw millis (some d) = some (true, m') ∧
      (N.val ≤ HW_MAX_SENSORS → m'.sensor_count = N.val) ∧
      (∀ (i : Nat) (hi : i < HW_MAX_SENSORS), i < N.val →
        d[3 + 5 * i]? = some (m'.sensors ⟨i, hi⟩).id ∧
        (m'.sensors ⟨i, hi⟩).valid = true ∧
        ∃ b0 b1 b2 b3 : Byte,
          d[4 + 5 * i]? = some b0 ∧ d[5 + 5 * i]? = some b1 ∧
          d[6 + 5 * i]? = some b2 ∧ d[7 + 5 * i]? = some b3 ∧
          (m'.sensors ⟨i, hi⟩).value.val
            = b0.val + 2 ^ 8 * b1.val + 2 ^ 16 * b2.val + 2 ^ 24 * b3.val) ∧
      (∀ j : Fin HW_MAX_SENSORS, N.val ≤ j.val → m'.sensors j = hw.sensors j) ∧
      m'.packets_ok = (hw.packets_ok + 1) % 4294967296 ∧
      m'.last_update = millis := by
  refine ⟨_, by rw [hw_monitor_parse_eq, parse_result_accept hw millis d N hlen h0 h1 h2 hend],
    fun _ => rfl, ?_, ?_, rfl, rfl⟩
  · intro i hi hiN
    have hslot : decoded d hw.sensors 0 (min N.val HW_MAX_SENSORS) ⟨i, hi⟩
        = decoded_slot d (hw.sensors ⟨i, hi⟩) i :=
      decoded_apply_lt d hw.sensors _ ⟨i, hi⟩ (by show i < min N.val HW_MAX_SENSORS; omega)
    show d[3 + 5 * i]? = some (decoded d hw.sensors 0 (min N.val HW_MAX_SENSORS) ⟨i, hi⟩).id ∧
      (decoded d hw.sensors 0 (min N.val HW_MAX_SENSORS) ⟨i, hi⟩).valid = true ∧
      ∃ b0 b1 b2 b3 : Byte,
          d[4 + 5 * i]? = some b0 ∧ d[5 + 5 * i]? = some b1 ∧
          d[6 + 5 * i]? = some b2 ∧ d[7 + 5 * i]? = some b3 ∧
          (decoded d hw.sensors 0 (min N.val HW_MAX_SENSORS) ⟨i, hi⟩).value.val
            = b0.val + 2 ^ 8 * b1.val + 2 ^ 16 * b2.val + 2 ^ 24 * b3.val
    rw [hslot]
    refine ⟨getElem?_eq_some_getD d _ (by omega), rfl, _, _, _, _,
      getElem?_eq_some_getD d _ (by omega), getElem?_eq_some_getD d _ (by omega),
      getElem?_eq_some_getD d _ (by omega), getElem?_eq_some_getD d _ (by omega), rfl⟩
  · intro j hj
    exact decoded_apply_ge d hw.sensors _ j (by
      have : min N.val HW_MAX_SENSORS ≤ N.val := Nat.min_le_left _ _
      omega)

/-- C1 (witness): scenario 1 from the start-up state commits two readings,
`0x01 -> 0x42360000` (45.5) and `0x20 -> 0x42780000` (62.0). -/
theorem C1_parse_commits_records_witness :
    ∃ m', hw_monitor_parse boot 1000 (some scenario1) = some (true, m') ∧
      m'.sensor_count = 2 ∧
      (m'.sensors ⟨0, by decide⟩).id = 0x01 ∧ (m'.sensors ⟨0, by decide⟩).value.val = 0x42360000 ∧
      (m'.sensors ⟨0, by decide⟩).valid = true ∧
      (m'.sensors ⟨1, by decide⟩).id = 0x20 ∧ (m'.sensors ⟨1, by decide⟩).value.val = 0x42780000 ∧
      (m'.sensors ⟨1, by decide⟩).valid = true ∧
      m'.packets_ok = 1 ∧ m'.last_update = 1000 := by
  obtain ⟨m', hp, hc, hs, _, hok, hup⟩ :=
    C1_parse_commits_records boot 1000 scenario1 2 (by decide) (by rfl) (by rfl) (by rfl)
      (by rfl)
  obtain ⟨a0, a1, b0, b1, b2, b3, e0, e1, e2, e3, e4⟩ := hs 0 (by decide) (by decide)
  obtain ⟨c0, c1, f0, f1, f2, f3, g0, g1, g2, g3, g4⟩ := hs 1 (by decide) (by decide)
  refine ⟨m', hp, hc (by decide), ?_, ?_, a1, ?_, ?_, c1, hok, hup⟩
  · have : some (0x01 : Byte) = some (m'.sensors ⟨0, by decide⟩).id := a0
    exact (Option.some.inj this).symm
  · have q0 : some (0x00 : Byte) = some b0 := e0
    have q1 : some (0x00 : Byte) = some b1 := e1
    have q2 : some (0x36 : Byte) = some b2 := e2
    have q3 : some (0x42 : Byte) = some b3 := e3
    have r := e4
    rw [← Option.some.inj q0, ← Option.some.inj q1, ← Option.some.inj q2,
      ← Option.some.inj q3] at r
    exact r
  · have : some (0x20 : Byte) = some (m'.sensors ⟨1, by decide⟩).id := c0
    exact (Option.some.inj this).symm
  · have q0 : some (0x00 : Byte) = some f0 := g0
    have q1 : some (0x00 : Byte) = some f1 := g1
    have q2 : some (0x78 : Byte) = some f2 := g2
    have q3 : some (0x42 : Byte) = some f3 := g3
    have r := g4
    rw [← Option.some.inj q0, ← Option.some.inj q1, ← Option.some.inj q2,
      ← Option.some.inj q3] at r
    exact r

/-! ## C2: a rejected buffer leaves the registry alone -/

/-- A rejection changes at most `packets_err`. -/
theorem parse_result_reject (hw : HWMonitor) (millis : Nat) (d : List Byte)
    (h : (parse_result hw millis d).1 = false) :
    (parse_result hw millis d).2 = hw ∨
    (parse_result hw millis d).2
      = { hw with packets_err := (hw.packets_err + 1) % 4294967296 } := by
  unfold parse_result at h ⊢
  split_ifs at h ⊢
  · exact Or.inl rfl
  · exact Or.inl rfl
  · exact Or.inl rfl
  · exact Or.inl rfl
  · exact Or.inr rfl

/-- C2: for every prior state and every buffer (null pointer included) on which
`hw_monitor_parse` returns false, all sensor slots (id, value, valid, time
stamp), `sensor_count` and `last_update` are what they were before the call. -/
theorem C2_parse_reject_keeps_registry (hw : HWMonitor) (millis : Nat)
    (data : Option (List Byte)) (m' : HWMonitor)
    (h : hw_monitor_parse hw millis data = some (false, m')) :
    m'.sensors = hw.sensors ∧ m'.sensor_count = hw.sensor_count ∧
      m'.last_update = hw.last_update := by
  cases data with
  | none =>
    have e : (false, hw) = (false, m') := Option.some.inj h
    have e2 : hw = m' := (Prod.mk.inj e).2
    subst e2
    exact ⟨rfl, rfl, rfl⟩
  | some d =>
    rw [hw_monitor_parse_eq] at h
    have e : parse_result hw millis d = (false, m') := Option.some.inj h
    have e1 : (parse_result hw millis d).1 = false := by rw [e]
    have e2 : (parse_result hw millis d).2 = m' := by rw [e]
    rcases parse_result_reject hw millis d e1 with h1 | h1
    · rw [e2] at h1
      subst h1
      exact ⟨rfl, rfl, rfl⟩
    · rw [e2] at h1
      subst h1
      exact ⟨rfl, rfl, rfl⟩

/-- C2 (witness): scenario 2 (bad end marker) is rejected from the start-up
state and the registry is as before. -/
theorem C2_parse_reject_keeps_registry_witness :
    hw_monitor_parse boot 1000 (some scenario2)
        = some (false, { boot with packets_err := 1 }) ∧
      ({ boot with packets_err := 1 } : HWMonitor).sensors = boot.sensors ∧
      ({ boot with packets_err := 1 } : HWMonitor).sensor_count = boot.sensor_count ∧
      ({ boot with packets_err := 1 } : HWMonitor).last_update = boot.last_update :=
  have h : hw_monitor_parse boot 1000 (some scenario2)
      = some (false, { boot with packets_err := 1 }) := by
    rw [hw_monitor_parse_eq]; rfl
  ⟨h, C2_parse_reject_keeps_registry boot 1000 (some scenario2) _ h⟩

/-! ## C3: the acceptance condition -/

/-- The returned flag of `parse_result`. -/
theorem parse_result_fst (hw : HWMonitor) (millis : Nat) (d : List Byte) :
    (parse_result hw millis d).1 = true ↔
      (6 ≤ d.length ∧ (d.getD 0 0).val = 0xAA ∧ (d.getD 1 0).val = 0x01 ∧
        6 + 5 * (d.getD 2 0).val ≤ d.length ∧
        (d.getD (5 + 5 * (d.getD 2 0).val) 0).val = 0x55) := by
  unfold parse_result
  split_ifs with a b c e f
  · constructor
    · intro h; exact absurd h (by decide)
    · intro h; omega
  · constructor
    · intro h; exact absurd h (by decide)
    · intro h; exact absurd h.2.1 b
  · constructor
    · intro h; exact absurd h (by decide)
    · intro h; exact absurd h.2.2.1 c
  · constructor
    · intro h; exact absurd h (by decide)
    · intro h; omega
  · constructor
    · intro h; exact absurd h (by decide)
    · intro h; exact absurd h.2.2.2.2 f
  · constructor
    · intro _
      exact ⟨by omega, not_not.mp b, not_not.mp c, by omega, not_not.mp f⟩
    · intro _; rfl

/-- C3: `hw_monitor_parse(data, len)` returns true if and only if `data` is
non-null, `len ≥ 6`, `data[0] = 0xAA`, `data[1] = 0x01`, `len ≥ 6 + 5 * data[2]`
and `data[6 + 5 * data[2] - 1] = 0x55`; the expected length is computed without
wrap-around (it is `6 + 5 N ≤ 1281` for every count byte `N`); and no read of
the function is outside `[0, len)`: the call never ends in a memory fault. -/
theorem C3_parse_accepts_iff (hw : HWMonitor) (millis : Nat) (data : Option (List Byte)) :
    ((∃ m', hw_monitor_parse hw millis data = some (true, m')) ↔
      ∃ d, data = some d ∧ 6 ≤ d.length ∧ d[0]? = some 0xAA ∧ d[1]? = some 0x01 ∧
        ∃ N : Byte, d[2]? = some N ∧ 6 + 5 * N.val ≤ d.length ∧
          d[6 + 5 * N.val - 1]? = some 0x55) ∧
    (∀ N : Byte, expected_len N = 3 + (N.val * 5) + 3 ∧ expected_len N = 6 + 5 * N.val ∧
      expected_len N ≤ 1281) ∧
    (∃ r, hw_monitor_parse hw millis data = some r) := by
  refine ⟨?_, ?_, ?_⟩
  · cases data with
    | none =>
      constructor
      · rintro ⟨m', h⟩
        have e : (false, hw) = (true, m') := Option.some.inj h
        exact absurd (Prod.mk.inj e).1 (by decide)
      · rintro ⟨d, hd, _⟩
        exact absurd hd (by simp)
    | some d =>
      rw [hw_monitor_parse_eq]
      constructor
      · rintro ⟨m', h⟩
        have e : parse_result hw millis d = (true, m') := Option.some.inj h
        have e1 : (parse_result hw millis d).1 = true := by rw [e]
        obtain ⟨h6, g0, g1, hl, ge⟩ := (parse_result_fst hw millis d).mp e1
        refine ⟨d, rfl, h6, ?_, ?_, d.getD 2 0, ?_, hl, ?_⟩
        · rw [getElem?_eq_some_getD d 0 (by omega)]
          exact congrArg some (Fin.ext g0)
        · rw [getElem?_eq_some_getD d 1 (by omega)]
          exact congrArg some (Fin.ext g1)
        · exact getElem?_eq_some_getD d 2 (by omega)
        · have e5 : 6 + 5 * (d.getD 2 0).val - 1 = 5 + 5 * (d.getD 2 0).val := by omega
          rw [e5, getElem?_eq_some_getD d _ (by omega)]
          exact congrArg some (Fin.ext ge)
      · rintro ⟨d', hd, h6, h0, h1, N, h2, hl, he⟩
        have hdd : d = d' := Option.some.inj hd
        subst hdd
        have e5 : 6 + 5 * N.val - 1 = 5 + 5 * N.val := by omega
        rw [e5] at he
        exact ⟨_, congrArg some (parse_result_accept hw millis d N hl h0 h1 h2 he)⟩
  · intro N
    have hN := N.isLt
    refine ⟨?_, expected_len_eq N, ?_⟩
    · unfold expected_len; omega
    · rw [expected_len_eq]; omega
  · cases data with
    | none => exact ⟨_, rfl⟩
    | some d => exact ⟨_, hw_monitor_parse_eq hw millis d⟩

/-! ## C4: lookup by id -/

theorem after_frame65_eq :
    after_frame65 =
      { boot with
        sensors := decoded frame65 boot.sensors 0 HW_MAX_SENSORS
        sensor_count := 65
        packets_ok := (boot.packets_ok + 1) % 4294967296
        last_update := 1000 } := by
  unfold after_frame65
  rw [frame65_accepted]

theorem parse_frame65 :
    hw_monitor_parse boot 1000 (some frame65) = some (true, after_frame65) := by
  rw [hw_monitor_parse_eq]
  unfold after_frame65
  rw [frame65_accepted]

/-- Every slot of `after_frame65` holds id `0x00`. -/
theorem after_frame65_ids (j : Fin HW_MAX_SENSORS) : (after_frame65.sensors j).id = 0 := by
  rw [after_frame65_eq]
  show (decoded frame65 boot.sensors 0 HW_MAX_SENSORS j).id = 0
  rw [decoded_apply_lt _ _ _ j j.isLt]
  exact frame65_ids j

theorem after_frame65_count : after_frame65.sensor_count = 65 := by
  rw [after_frame65_eq]

/-- A lookup in `after_frame65` of an id other than `0x00` leaves the array. -/
theorem after_frame65_get_outside (id : Byte) (hid : id ≠ 0) :
    hw_monitor_get after_frame65 id = none := by
  unfold hw_monitor_get
  rw [get_loop_outside after_frame65 id (by rw [after_frame65_count]; decide)
    (fun j h => hid (by rw [← h.1]; exact after_frame65_ids j)) _ 0 (Nat.zero_le _)]
  rfl

/-- The lookup while the scan stays inside the array: if a slot
`k < sensor_count` of the array has the requested id and `valid = true`,
`hw_monitor_get(id)` returns the value of the lowest-index such slot; if
`sensor_count ≤ 64` and no slot `i < sensor_count` has the id with
`valid = true`, it returns the sentinel -999.0; the call changes no state. -/
theorem hw_monitor_get_first_valid_match (hw : HWMonitor) (id : Byte) :
    (∀ (k : Nat) (hk : k < HW_MAX_SENSORS), k < hw.sensor_count →
      (hw.sensors ⟨k, hk⟩).id = id → (hw.sensors ⟨k, hk⟩).valid = true →
      (∀ (j : Nat) (hj : j < HW_MAX_SENSORS), j < k →
        ¬ ((hw.sensors ⟨j, hj⟩).id = id ∧ (hw.sensors ⟨j, hj⟩).valid = true)) →
      hw_monitor_get hw id = some ((hw.sensors ⟨k, hk⟩).value, hw)) ∧
    (hw.sensor_count ≤ HW_MAX_SENSORS →
      (∀ (j : Nat) (hj : j < HW_MAX_SENSORS), j < hw.sensor_count →
        ¬ ((hw.sensors ⟨j, hj⟩).id = id ∧ (hw.sensors ⟨j, hj⟩).valid = true)) →
      hw_monitor_get hw id = some (HW_SENTINEL, hw)) := by
  constructor
  · intro k hk hkc hid hv hfirst
    unfold hw_monitor_get
    rw [get_loop_found hw id k hk hkc hid hv hfirst _ 0 (Nat.zero_le _) (by omega)]
    rfl
  · intro hc habs
    unfold hw_monitor_get
    rw [get_loop_absent hw id hc habs _ 0 (Nat.zero_le _) (by omega)]
    rfl

/-- After scenario 1, `get(0x20)` is the value of slot 1 (62.0, `0x42780000`)
and `get(0x07)` is the sentinel. -/
theorem hw_monitor_get_first_valid_match_example :
    hw_monitor_get after_scenario1 0x20
        = some ((after_scenario1.sensors ⟨1, by decide⟩).value, after_scenario1) ∧
      (after_scenario1.sensors ⟨1, by decide⟩).value.val = 0x42780000 ∧
      hw_monitor_get after_scenario1 0x07 = some (HW_SENTINEL, after_scenario1) :=
  ⟨(hw_monitor_get_first_valid_match after_scenario1 0x20).1 1 (by decide) (by decide) (by rfl) (by rfl)
      (fun j hj hj1 => by
        have hj0 : j = 0 := by omega
        subst hj0
        revert hj
        decide),
    by rfl,
    (hw_monitor_get_first_valid_match after_scenario1 0x07).2 (by decide)
      (fun j hj hj2 => by
        have hj2' : j < 2 := hj2
        clear hj2
        revert hj
        interval_cases j <;> decide)⟩

/-! ## C5: lookups after an accepted frame -/

/-- The state left by an accepting call. -/
theorem accepted_state (hw : HWMonitor) (millis : Nat) (d : List Byte) (m' : HWMonitor)
    (N : Byte) (hacc : hw_monitor_parse hw millis (some d) = some (true, m'))
    (h2 : d[2]? = some N) :
    6 + 5 * N.val ≤ d.length ∧
    m' = { hw with
      sensors := decoded d hw.sensors 0 (min N.val HW_MAX_SENSORS)
      sensor_count := N.val
      packets_ok := (hw.packets_ok + 1) % 4294967296
      last_update := millis } := by
  rw [hw_monitor_parse_eq] at hacc
  have e : parse_result hw millis d = (true, m') := Option.some.inj hacc
  have e1 : (parse_result hw millis d).1 = true := by rw [e]
  obtain ⟨h6, g0, g1, hl, ge⟩ := (parse_result_fst hw millis d).mp e1
  have g2 := getD_of_getElem? d 2 N h2
  rw [g2] at hl ge
  have a := parse_result_accept hw millis d N hl
    (by rw [getElem?_eq_some_getD d 0 (by omega)]; exact congrArg some (Fin.ext g0))
    (by rw [getElem?_eq_some_getD d 1 (by omega)]; exact congrArg some (Fin.ext g1))
    h2
    (by rw [getElem?_eq_some_getD d _ (by omega)]; exact congrArg some (Fin.ext ge))
  rw [e] at a
  exact ⟨hl, (Prod.mk.inj a).2⟩

/-- C5 (as stated, refuted): `frame65` is accepted from the start-up state and
its only record with id `0x42` is record 64, with value bytes `00 00 36 42`
(45.5); afterwards no slot of the registry holds the id `0x42` and
`hw_monitor_get(0x42)` does not return 45.5: record 64 was not stored. -/
theorem C5_counterexample :
    hw_monitor_parse boot 1000 (some frame65) = some (true, after_frame65) ∧
    frame65[3 + 5 * 64]? = some 0x42 ∧
    (∀ j, j < 64 → frame65[3 + 5 * j]? ≠ some 0x42) ∧
    frame65[4 + 5 * 64]? = some 0x00 ∧ frame65[5 + 5 * 64]? = some 0x00 ∧
    frame65[6 + 5 * 64]? = some 0x36 ∧ frame65[7 + 5 * 64]? = some 0x42 ∧
    (∀ j : Fin HW_MAX_SENSORS, (after_frame65.sensors j).id ≠ 0x42) ∧
    hw_monitor_get after_frame65 0x42
      ≠ some (conv_f 0x00 0x00 0x36 0x42, after_frame65) := by
  have hget : ∀ k, k < 331 → frame65[k]? = some (frame65.getD k 0) := fun k hk =>
    getElem?_eq_some_getD frame65 k (by rw [frame65_length]; exact hk)
  refine ⟨parse_frame65, ?_, ?_, ?_, ?_, ?_, ?_, ?_, ?_⟩
  · rw [hget (3 + 5 * 64) (by decide)]; rfl
  · intro j hj
    rw [hget (3 + 5 * j) (by omega), frame65_ids ⟨j, hj⟩]
    decide
  · rw [hget (4 + 5 * 64) (by decide)]; rfl
  · rw [hget (5 + 5 * 64) (by decide)]; rfl
  · rw [hget (6 + 5 * 64) (by decide)]; rfl
  · rw [hget (7 + 5 * 64) (by decide)]; rfl
  · intro j
    rw [after_frame65_ids j]
    decide
  · rw [after_frame65_get_outside 0x42 (by decide)]
    exact fun h => Option.noConfusion h

/-- C5 (amended): after `hw_monitor_parse` accepts a frame with
`N = data[2]` records, whatever the registry held before, for every id: if the
first record of the frame (in frame order) whose id byte is `id` is one of the
first 64 records, `hw_monitor_get(id)` is the value of that record; if
`N ≤ 64` and no record of the frame has that id, it is the sentinel -999.0;
and `sensor_count = N` when `N ≤ 64`. -/
theorem C5_get_reflects_frame (hw : HWMonitor) (millis : Nat) (d : List Byte)
    (m' : HWMonitor) (N : Byte)
    (hacc : hw_monitor_parse hw millis (some d) = some (true, m'))
    (h2 : d[2]? = some N) (id : Byte) :
    6 + 5 * N.val ≤ d.length ∧
    (N.val ≤ HW_MAX_SENSORS → m'.sensor_count = N.val) ∧
    (∀ k, k < N.val → k < HW_MAX_SENSORS → d[3 + 5 * k]? = some id →
      (∀ j, j < k → d[3 + 5 * j]? ≠ some id) →
      ∀ b0 b1 b2 b3 : Byte, d[4 + 5 * k]? = some b0 → d[5 + 5 * k]? = some b1 →
        d[6 + 5 * k]? = some b2 → d[7 + 5 * k]? = some b3 →
        hw_monitor_get m' id = some (conv_f b0 b1 b2 b3, m')) ∧
    (N.val ≤ HW_MAX_SENSORS → (∀ k, k < N.val → d[3 + 5 * k]? ≠ some id) →
      hw_monitor_get m' id = some (HW_SENTINEL, m')) := by
  obtain ⟨hl, hm⟩ := accepted_state hw millis d m' N hacc h2
  have hcount : m'.sensor_count = N.val := by rw [hm]
  have hslot : ∀ (j : Nat) (hj : j < HW_MAX_SENSORS), j < N.val →
      m'.sensors ⟨j, hj⟩ = decoded_slot d (hw.sensors ⟨j, hj⟩) j := by
    intro j hj hjN
    rw [hm]
    exact decoded_apply_lt d hw.sensors _ ⟨j, hj⟩
      (by show j < min N.val HW_MAX_SENSORS; omega)
  refine ⟨hl, fun _ => hcount, ?_, ?_⟩
  · intro k hkN hk hid hfirst b0 b1 b2 b3 e0 e1 e2 e3
    have hval : (m'.sensors ⟨k, hk⟩).value = conv_f b0 b1 b2 b3 := by
      rw [hslot k hk hkN]
      show conv_f (d.getD (4 + 5 * k) 0) (d.getD (5 + 5 * k) 0) (d.getD (6 + 5 * k) 0)
        (d.getD (7 + 5 * k) 0) = conv_f b0 b1 b2 b3
      rw [getD_of_getElem? d _ _ e0, getD_of_getElem? d _ _ e1, getD_of_getElem? d _ _ e2,
        getD_of_getElem? d _ _ e3]
    unfold hw_monitor_get
    rw [get_loop_found m' id k hk (by rw [hcount]; exact hkN)
      (by rw [hslot k hk hkN]; exact getD_of_getElem? d _ _ hid)
      (by rw [hslot k hk hkN]; rfl)
      (fun j hj hjk hmatch => by
        rw [hslot j hj (by omega)] at hmatch
        apply hfirst j hjk
        rw [getElem?_eq_some_getD d _ (by omega)]
        exact congrArg some hmatch.1)
      _ 0 (Nat.zero_le _) (by omega), hval]
    rfl
  · intro hN habs
    unfold hw_monitor_get
    rw [get_loop_absent m' id (by rw [hcount]; exact hN)
      (fun j hj hjc hmatch => by
        rw [hcount] at hjc
        rw [hslot j hj hjc] at hmatch
        apply habs j hjc
        rw [getElem?_eq_some_getD d _ (by omega)]
        exact congrArg some hmatch.1)
      _ 0 (Nat.zero_le _) (by omega)]
    rfl

theorem parse_scenario1 :
    hw_monitor_parse boot 1000 (some scenario1) = some (true, after_scenario1) := by
  rw [hw_monitor_parse_eq]
  rfl

/-- C5 (witness): scenario 1 gives `get(0x01) = 45.5` (`0x42360000`),
`get(0x20) = 62.0` (`0x42780000`), `count = 2`, and the sentinel for the id
`0x07`, which the frame does not list. -/
theorem C5_get_reflects_frame_witness :
    hw_monitor_parse boot 1000 (some scenario1) = some (true, after_scenario1) ∧
    after_scenario1.sensor_count = 2 ∧
    hw_monitor_get after_scenario1 0x01 = some (0x42360000, after_scenario1) ∧
    hw_monitor_get after_scenario1 0x20 = some (0x42780000, after_scenario1) ∧
    hw_monitor_get after_scenario1 0x07 = some (HW_SENTINEL, after_scenario1) :=
  ⟨parse_scenario1,
    (C5_get_reflects_frame boot 1000 scenario1 after_scenario1 2 parse_scenario1 (by rfl)
      0x01).2.1 (by decide),
    (C5_get_reflects_frame boot 1000 scenario1 after_scenario1 2 parse_scenario1 (by rfl)
      0x01).2.2.1 0 (by decide) (by decide) (by rfl) (fun j hj => by omega)
      0x00 0x00 0x36 0x42 (by rfl) (by rfl) (by rfl) (by rfl),
    (C5_get_reflects_frame boot 1000 scenario1 after_scenario1 2 parse_scenario1 (by rfl)
      0x20).2.2.1 1 (by decide) (by decide) (by rfl)
      (fun j hj => by
        have hj0 : j = 0 := by omega
        subst hj0
        decide)
      0x00 0x00 0x78 0x42 (by rfl) (by rfl) (by rfl) (by rfl),
    (C5_get_reflects_frame boot 1000 scenario1 after_scenario1 2 parse_scenario1 (by rfl)
      0x07).2.2.2 (by decide)
      (fun k hk => by
        have hk2 : k < 2 := hk
        interval_cases k <;> decide)⟩

/-! ## C6: `sensor_count` and the capacity of the array -/

/-- C6 (the code at the failing input): the state after parsing `frame65` is
reachable from `hw_monitor_init`, its `sensor_count` is 65, above the capacity
`HW_MAX_SENSORS = 64`, only 64 slots were populated, and the scan of
`hw_monitor_get(0x07)` over `[0, sensor_count)` indexes outside the array. -/
theorem C6_sensor_count_exceeds_capacity :
    Reachable after_frame65 ∧
    after_frame65.sensor_count = 65 ∧ HW_MAX_SENSORS < after_frame65.sensor_count ∧
    hw_monitor_get after_frame65 0x07 = none := by
  refine ⟨?_, after_frame65_count, by rw [after_frame65_count]; decide,
    after_frame65_get_outside 0x07 (by decide)⟩
  exact Reachable.parse boot 1000 (some frame65) true after_frame65
    (Reachable.init _) parse_frame65

/-! ## C7: the error counter on rejection -/

/-- The counters after a call, by the check that fails. -/
theorem parse_result_counters (hw : HWMonitor) (millis : Nat) (d : List Byte)
    (h : (parse_result hw millis d).1 = false) :
    (parse_result hw millis d).2.packets_ok = hw.packets_ok ∧
    (parse_result hw millis d).2.packets_err =
      if 6 ≤ d.length ∧ (d.getD 0 0).val = 0xAA ∧ (d.getD 1 0).val = 0x01 ∧
          6 + 5 * (d.getD 2 0).val ≤ d.length
      then (hw.packets_err + 1) % 4294967296 else hw.packets_err := by
  unfold parse_result at h ⊢
  split_ifs at h ⊢ <;> first | exact ⟨rfl, rfl⟩ | omega

/-- C7 (as stated, refuted): the buffer `bad_start` (wrong start byte) is
rejected from the start-up state and `packets_err` is not incremented. -/
theorem C7_counterexample :
    bad_start[0]? = some 0x00 ∧
    hw_monitor_parse boot 1000 (some bad_start) = some (false, boot) ∧
    boot.packets_err = 0 ∧ boot.packets_err ≠ (boot.packets_err + 1) % 4294967296 := by
  refine ⟨by rfl, ?_, by rfl, by decide⟩
  rw [hw_monitor_parse_eq]
  rfl

/-- C7 (amended): for every prior state and every buffer on which
`hw_monitor_parse` returns false, `packets_ok` is unchanged; `packets_err` is
incremented by exactly one (mod 2^32) when the rejection is a wrong
terminator (non-null buffer, start and version bytes right, buffer at least
as long as the count field implies), and is unchanged for a null pointer, a
buffer shorter than 6 bytes, a wrong start byte, a wrong version byte and a
buffer shorter than the length implied by the count field. -/
theorem C7_reject_counters (hw : HWMonitor) (millis : Nat) (data : Option (List Byte))
    (m' : HWMonitor) (h : hw_monitor_parse hw millis data = some (false, m')) :
    m'.packets_ok = hw.packets_ok ∧
    ((∃ (d : List Byte) (N : Byte), data = some d ∧ d[0]? = some 0xAA ∧ d[1]? = some 0x01 ∧
        d[2]? = some N ∧ 6 + 5 * N.val ≤ d.length) →
      m'.packets_err = (hw.packets_err + 1) % 4294967296) ∧
    ((¬ ∃ (d : List Byte) (N : Byte), data = some d ∧ d[0]? = some 0xAA ∧
        d[1]? = some 0x01 ∧ d[2]? = some N ∧ 6 + 5 * N.val ≤ d.length) →
      m'.packets_err = hw.packets_err) := by
  cases data with
  | none =>
    have e : (false, hw) = (false, m') := Option.some.inj h
    have e2 : hw = m' := (Prod.mk.inj e).2
    subst e2
    refine ⟨rfl, ?_, fun _ => rfl⟩
    rintro ⟨d, N, hd, _⟩
    exact absurd hd (by simp)
  | some d =>
    rw [hw_monitor_parse_eq] at h
    have e : parse_result hw millis d = (false, m') := Option.some.inj h
    have e1 : (parse_result hw millis d).1 = false := by rw [e]
    have e2 : (parse_result hw millis d).2 = m' := by rw [e]
    obtain ⟨hok, herr⟩ := parse_result_counters hw millis d e1
    rw [e2] at hok herr
    refine ⟨hok, ?_, ?_⟩
    · rintro ⟨d', N, hd, h0, h1, h2, hl⟩
      have hdd : d = d' := Option.some.inj hd
      subst hdd
      have g0 := getD_of_getElem? d 0 _ h0
      have g1 := getD_of_getElem? d 1 _ h1
      have g2 := getD_of_getElem? d 2 _ h2
      rw [herr, g0, g1, g2]
      have hc : 6 ≤ d.length ∧ ((0xAA : Byte)).val = 0xAA ∧ ((0x01 : Byte)).val = 0x01 ∧
          6 + 5 * N.val ≤ d.length := ⟨by omega, rfl, rfl, hl⟩
      rw [if_pos hc]
    · intro hne
      rw [herr]
      by_cases hc : 6 ≤ d.length ∧ (d.getD 0 0).val = 0xAA ∧ (d.getD 1 0).val = 0x01 ∧
          6 + 5 * (d.getD 2 0).val ≤ d.length
      · exfalso
        apply hne
        obtain ⟨h6, g0, g1, hl⟩ := hc
        refine ⟨d, d.getD 2 0, rfl, ?_, ?_, getElem?_eq_some_getD d 2 (by omega), hl⟩
        · rw [getElem?_eq_some_getD d 0 (by omega)]
          exact congrArg some (Fin.ext g0)
        · rw [getElem?_eq_some_getD d 1 (by omega)]
          exact congrArg some (Fin.ext g1)
      · rw [if_neg hc]

/-- C7 (witness): scenario 2 (wrong terminator) advances `packets_err` from 0
to 1 and leaves `packets_ok`. -/
theorem C7_reject_counters_witness :
    hw_monitor_parse boot 1000 (some scenario2)
        = some (false, { boot with packets_err := 1 }) ∧
    ({ boot with packets_err := 1 } : HWMonitor).packets_ok = boot.packets_ok ∧
    ({ boot with packets_err := 1 } : HWMonitor).packets_err
      = (boot.packets_err + 1) % 4294967296 :=
  have h : hw_monitor_parse boot 1000 (some scenario2)
      = some (false, { boot with packets_err := 1 }) := by
    rw [hw_monitor_parse_eq]; rfl
  ⟨h, (C7_reject_counters boot 1000 (some scenario2) _ h).1,
    (C7_reject_counters boot 1000 (some scenario2) _ h).2.1
      ⟨scenario2, 2, rfl, by rfl, by rfl, by rfl, by decide⟩⟩

/-! ## C8: bad terminator -/

/-- C8: for every prior state and every buffer with `len ≥ 6`,
`data[0] = 0xAA`, `data[1] = 0x01`, `len ≥ 6 + 5 * data[2]` and
`data[5 + 5 * data[2]] ≠ 0x55`, `hw_monitor_parse` returns false, `packets_err`
is incremented by exactly one (mod 2^32), and `packets_ok`, `sensor_count`,
`last_update` and all slots are unchanged. -/
theorem C8_bad_terminator (hw : HWMonitor) (millis : Nat) (d : List Byte) (N e : Byte)
    (h6 : 6 ≤ d.length) (h0 : d[0]? = some 0xAA) (h1 : d[1]? = some 0x01)
    (h2 : d[2]? = some N) (hlen : 6 + 5 * N.val ≤ d.length)
    (hend : d[5 + 5 * N.val]? = some e) (he : e ≠ 0x55) :
    ∃ m', hw_monitor_parse hw millis (some d) = some (false, m') ∧
      m'.packets_err = (hw.packets_err + 1) % 4294967296 ∧
      m'.packets_ok = hw.packets_ok ∧ m'.sensor_count = hw.sensor_count ∧
      m'.last_update = hw.last_update ∧ m'.sensors = hw.sensors := by
  refine ⟨{ hw with packets_err := (hw.packets_err + 1) % 4294967296 }, ?_,
    rfl, rfl, rfl, rfl, rfl⟩
  rw [hw_monitor_parse_eq]
  have g0 := getD_of_getElem? d 0 _ h0
  have g1 := getD_of_getElem? d 1 _ h1
  have g2 := getD_of_getElem? d 2 _ h2
  have ge := getD_of_getElem? d _ _ hend
  unfold parse_result
  rw [g0, g1, g2, ge]
  have hl6 : ¬ d.length < 6 := by omega
  have hlN : ¬ d.length < 6 + 5 * N.val := by omega
  have hev : e.val ≠ 0x55 := fun hv => he (Fin.ext hv)
  rw [if_neg hl6, if_neg hlN, if_pos hev]
  rfl

/-- C8 (witness): scenario 2, the bytes of scenario 1 with the final `55`
replaced by `00`. -/
theorem C8_bad_terminator_witness :
    ∃ m', hw_monitor_parse boot 1000 (some scenario2) = some (false, m') ∧
      m'.packets_err = 1 ∧ m'.packets_ok = boot.packets_ok ∧
      m'.sensor_count = boot.sensor_count ∧ m'.last_update = boot.last_update ∧
      m'.sensors = boot.sensors :=
  C8_bad_terminator boot 1000 scenario2 2 0x00 (by decide) (by rfl) (by rfl) (by rfl)
    (by decide) (by rfl) (by decide)

/-! ## C9: the empty frame -/

/-- C9: for every prior state and every buffer of length at least 6 with
`data[0..2] = AA 01 00` and `data[5] = 55` (in particular `AA 01 00 00 00 55`),
`hw_monitor_parse` returns true, sets `sensor_count = 0`, increments
`packets_ok` (mod 2^32), writes no slot, and afterwards `hw_monitor_get(id)`
returns the sentinel -999.0 for every id. -/
theorem C9_empty_frame (hw : HWMonitor) (millis : Nat) (d : List Byte)
    (h6 : 6 ≤ d.length) (h0 : d[0]? = some 0xAA) (h1 : d[1]? = some 0x01)
    (h2 : d[2]? = some 0x00) (h5 : d[5]? = some 0x55) :
    ∃ m', hw_monitor_parse hw millis (some d) = some (true, m') ∧
      m'.sensor_count = 0 ∧ m'.packets_ok = (hw.packets_ok + 1) % 4294967296 ∧
      m'.sensors = hw.sensors ∧
      ∀ id : Byte, hw_monitor_get m' id = some (HW_SENTINEL, m') := by
  have hacc := parse_result_accept hw millis d 0 h6 h0 h1 h2 h5
  have hdec : decoded d hw.sensors 0 (min ((0 : Byte)).val HW_MAX_SENSORS) = hw.sensors :=
    decoded_empty d hw.sensors 0
  rw [hdec] at hacc
  refine ⟨{ hw with
      sensor_count := ((0 : Byte)).val
      packets_ok := (hw.packets_ok + 1) % 4294967296
      last_update := millis }, by rw [hw_monitor_parse_eq, hacc], rfl, rfl, rfl, ?_⟩
  intro id
  exact hw_monitor_get_absent _ id (Nat.zero_le _)
    (fun j _ hj => absurd hj (Nat.not_lt_zero j))

/-- C9 (witness): the frame `AA 01 00 00 00 55` from the state left by
scenario 1: accepted, `sensor_count = 0`, the ids of scenario 1 are no longer
found. -/
theorem C9_empty_frame_witness :
    ∃ m', hw_monitor_parse after_scenario1 2000 (some empty_frame) = some (true, m') ∧
      m'.sensor_count = 0 ∧ m'.packets_ok = 2 ∧ m'.sensors = after_scenario1.sensors ∧
      ∀ id : Byte, hw_monitor_get m' id = some (HW_SENTINEL, m') :=
  C9_empty_frame after_scenario1 2000 empty_frame (by decide) (by rfl) (by rfl) (by rfl)
    (by rfl)

/-! ## C10: the reserved bytes -/

/-- The outcome of the batch decoder depends on the buffer only through its
length and the bytes outside the two reserved positions. -/
theorem parse_result_congr (hw : HWMonitor) (millis : Nat) (d1 d2 : List Byte)
    (hlen : d1.length = d2.length)
    (hk : ∀ k, k ≠ 3 + 5 * (d1.getD 2 0).val → k ≠ 4 + 5 * (d1.getD 2 0).val →
      d2.getD k 0 = d1.getD k 0) :
    parse_result hw millis d2 = parse_result hw millis d1 := by
  have hN := (d1.getD 2 0).isLt
  have e0 := hk 0 (by omega) (by omega)
  have e1 := hk 1 (by omega) (by omega)
  have e2 := hk 2 (by omega) (by omega)
  have ee := hk (5 + 5 * (d1.getD 2 0).val) (by omega) (by omega)
  have edec : decoded d2 hw.sensors 0 (min (d1.getD 2 0).val HW_MAX_SENSORS)
      = decoded d1 hw.sensors 0 (min (d1.getD 2 0).val HW_MAX_SENSORS) := by
    funext j
    by_cases hj : j.val < min (d1.getD 2 0).val HW_MAX_SENSORS
    · have hjN : j.val < (d1.getD 2 0).val := lt_of_lt_of_le hj (Nat.min_le_left _ _)
      rw [decoded_apply_lt d2 _ _ j hj, decoded_apply_lt d1 _ _ j hj]
      unfold decoded_slot
      rw [hk (3 + 5 * j.val) (by omega) (by omega), hk (4 + 5 * j.val) (by omega) (by omega),
        hk (5 + 5 * j.val) (by omega) (by omega), hk (6 + 5 * j.val) (by omega) (by omega),
        hk (7 + 5 * j.val) (by omega) (by omega)]
    · rw [decoded_apply_ge d2 _ _ j (by omega), decoded_apply_ge d1 _ _ j (by omega)]
  unfold parse_result
  rw [← hlen, e0, e1, e2, ee, edec]

/-- C10: the two reserved bytes influence nothing. Batch decoder: two buffers
of equal length that agree at every offset other than `3 + 5 N` and `4 + 5 N`
(`N = data[2]`) give, from the same state and at the same time, the same result
and the same final state. Stream debugger: in the states `IN_CRC1` and
`IN_CRC2` the successor (state and all counters) is the same for every byte. -/
theorem C10_reserved_bytes_ignored :
    (∀ (hw : HWMonitor) (millis : Nat) (d1 d2 : List Byte),
      d1.length = d2.length →
      (∀ k, (∀ N : Byte, d1[2]? = some N → k ≠ 3 + 5 * N.val ∧ k ≠ 4 + 5 * N.val) →
        d1[k]? = d2[k]?) →
      hw_monitor_parse hw millis (some d1) = hw_monitor_parse hw millis (some d2)) ∧
    (∀ (s : StreamDebug) (b1 b2 : Byte),
      s.state = State.IN_CRC1 ∨ s.state = State.IN_CRC2 →
      processByte s b1 = processByte s b2) := by
  constructor
  · intro hw millis d1 d2 hlen hagree
    rw [hw_monitor_parse_eq, hw_monitor_parse_eq]
    refine congrArg some (parse_result_congr hw millis d1 d2 hlen ?_).symm
    intro k hk3 hk4
    rw [List.getD_eq_getElem?_getD, List.getD_eq_getElem?_getD]
    refine congrArg (fun o => Option.getD o 0) (hagree k ?_).symm
    intro N hN
    have g2 := getD_of_getElem? d1 2 N hN
    rw [g2] at hk3 hk4
    exact ⟨hk3, hk4⟩
  · intro s b1 b2 hs
    rcases hs with hs | hs
    · simp only [processByte, hs]
    · simp only [processByte, hs]

/-- C10 (witness): scenario 1 with reserved bytes `00 00` and with `12 34`
leaves the same result and state; the stream debugger in `IN_CRC1` steps to
the same state on `0x00` and on `0xFF`. -/
theorem C10_reserved_bytes_ignored_witness :
    hw_monitor_parse boot 1000 (some scenario1)
        = hw_monitor_parse boot 1000 (some scenario1_reserved) ∧
    processByte in_crc1 0x00 = processByte in_crc1 0xFF :=
  ⟨C10_reserved_bytes_ignored.1 boot 1000 scenario1 scenario1_reserved (by rfl)
      (fun k hk => by
        have h := hk 2 (by rfl)
        have h13 : k ≠ 13 := h.1
        have h14 : k ≠ 14 := h.2
        by_cases hk16 : k < 16
        · interval_cases k <;> first | rfl | exact absurd rfl h13 | exact absurd rfl h14
        · rw [List.getElem?_eq_none (by show scenario1.length ≤ k; simp [scenario1]; omega),
            List.getElem?_eq_none (by
              show scenario1_reserved.length ≤ k; simp [scenario1_reserved]; omega)]),
    C10_reserved_bytes_ignored.2 in_crc1 0x00 0xFF (Or.inl rfl)⟩

/-! ## Single steps of `processByte` -/

theorem feed_nil (s : StreamDebug) : feed s [] = s := rfl

theorem feed_cons (s : StreamDebug) (b : Byte) (bs : List Byte) :
    feed s (b :: bs) = feed (processByte s b) bs := rfl

theorem feed_append (s : StreamDebug) (a b : List Byte) :
    feed s (a ++ b) = feed (feed s a) b := by
  unfold feed
  rw [List.foldl_append]

theorem step_idle_start (s : StreamDebug) (b : Byte) (hs : s.state = State.IDLE)
    (hb : b.val = 0xAA) :
    processByte s b =
      { s with
        total_bytes := (s.total_bytes + 1) % 4294967296
        state := State.GOT_START
        packet_size := 1 } := by
  simp [processByte, hs, hb]

theorem step_idle_other (s : StreamDebug) (b : Byte) (hs : s.state = State.IDLE)
    (hb : b.val ≠ 0xAA) :
    processByte s b = { s with total_bytes := (s.total_bytes + 1) % 4294967296 } := by
  simp [processByte, hs, hb]

theorem step_start_version (s : StreamDebug) (b : Byte) (hs : s.state = State.GOT_START)
    (hb : b.val = 0x01) :
    processByte s b =
      { s with
        total_bytes := (s.total_bytes + 1) % 4294967296
        packet_size := (s.packet_size + 1) % 4294967296
        state := State.GOT_VER } := by
  simp [processByte, hs, hb]

theorem step_start_bad (s : StreamDebug) (b : Byte) (hs : s.state = State.GOT_START)
    (hb : b.val ≠ 0x01) :
    processByte s b =
      { s with
        total_bytes := (s.total_bytes + 1) % 4294967296
        packet_size := (s.packet_size + 1) % 4294967296
        state := State.IDLE
        invalid_packets := (s.invalid_packets + 1) % 4294967296 } := by
  simp [processByte, hs, hb]

theorem step_version_count (s : StreamDebug) (b : Byte) (hs : s.state = State.GOT_VER)
    (hb : 1 ≤ b.val) :
    processByte s b =
      { s with
        total_bytes := (s.total_bytes + 1) % 4294967296
        packet_size := (s.packet_size + 1) % 4294967296
        sensor_count := b.val
        current_sensor := 0
        byte_in_sensor := 0
        state := State.IN_DATA
        max_sensor_count := if b.val > s.max_sensor_count then b.val else s.max_sensor_count } := by
  have hb2 := b.isLt
  have h0 : ¬ (b.val = 0 ∨ b.val > 255) := by omega
  by_cases hm : b.val > s.max_sensor_count
  · simp [processByte, hs, h0, hm]
  · simp [processByte, hs, h0, hm]

theorem step_version_zero (s : StreamDebug) (b : Byte) (hs : s.state = State.GOT_VER)
    (hb : b.val = 0) :
    processByte s b =
      { s with
        total_bytes := (s.total_bytes + 1) % 4294967296
        packet_size := (s.packet_size + 1) % 4294967296
        sensor_count := 0
        current_sensor := 0
        byte_in_sensor := 0
        state := State.IDLE
        invalid_packets := (s.invalid_packets + 1) % 4294967296 } := by
  simp [processByte, hs, hb]

theorem step_crc1 (s : StreamDebug) (b : Byte) (hs : s.state = State.IN_CRC1) :
    processByte s b =
      { s with
        total_bytes := (s.total_bytes + 1) % 4294967296
        packet_size := (s.packet_size + 1) % 4294967296
        state := State.IN_CRC2 } := by
  simp [processByte, hs]

theorem step_crc2 (s : StreamDebug) (b : Byte) (hs : s.state = State.IN_CRC2) :
    processByte s b =
      { s with
        total_bytes := (s.total_bytes + 1) % 4294967296
        packet_size := (s.packet_size + 1) % 4294967296
        state := State.GOT_END } := by
  simp [processByte, hs]

theorem step_end_ok (s : StreamDebug) (b : Byte) (hs : s.state = State.GOT_END)
    (hb : b.val = 0x55) :
    processByte s b =
      { s with
        total_bytes := (s.total_bytes + 1) % 4294967296
        packet_size := (s.packet_size + 1) % 4294967296
        valid_packets := (s.valid_packets + 1) % 4294967296
        state := State.IDLE } := by
  simp [processByte, hs, hb]

theorem step_end_bad (s : StreamDebug) (b : Byte) (hs : s.state = State.GOT_END)
    (hb : b.val ≠ 0x55) :
    processByte s b =
      { s with
        total_bytes := (s.total_bytes + 1) % 4294967296
        packet_size := (s.packet_size + 1) % 4294967296
        invalid_packets := (s.invalid_packets + 1) % 4294967296
        state := State.IDLE } := by
  simp [processByte, hs, hb]

theorem step_count_skip (s : StreamDebug) (b : Byte) (hs : s.state = State.GOT_COUNT) :
    processByte s b = { s with total_bytes := (s.total_bytes + 1) % 4294967296 } := by
  simp [processByte, hs]

theorem step_data (s : StreamDebug) (b : Byte) (hs : s.state = State.IN_DATA) :
    processByte s b =
      if (s.byte_in_sensor + 1) % 256 = 5 then
        { s with
          total_bytes := (s.total_bytes + 1) % 4294967296
          packet_size := (s.packet_size + 1) % 4294967296
          current_sensor := (s.current_sensor + 1) % 256
          byte_in_sensor := 0
          state := if (s.current_sensor + 1) % 256 ≥ s.sensor_count then State.IN_CRC1
            else State.IN_DATA }
      else
        { s with
          total_bytes := (s.total_bytes + 1) % 4294967296
          packet_size := (s.packet_size + 1) % 4294967296
          byte_in_sensor := (s.byte_in_sensor + 1) % 256 } := by
  by_cases h5 : (s.byte_in_sensor + 1) % 256 = 5
  · by_cases hc : (s.current_sensor + 1) % 256 ≥ s.sensor_count
    · simp [processByte, hs, h5, hc]
    · simp [processByte, hs, h5, hc]
  · simp [processByte, hs, h5]

theorem step_rec_state (s : StreamDebug) (N b : Byte) (j : Nat) (hj : j < 5 * N.val) :
    processByte (rec_state s N j) b = rec_state s N (j + 1) := by
  have hN := N.isLt
  have hst : (rec_state s N j).state = State.IN_DATA := by
    simp only [rec_state]
    rw [if_neg (by omega)]
  rw [step_data _ b hst]
  simp only [rec_state]
  by_cases h5 : (j % 5 + 1) % 256 = 5
  · rw [if_pos h5]
    by_cases hc : (j / 5 + 1) % 256 ≥ N.val
    · have h1 : 5 * N.val ≤ j + 1 := by omega
      rw [if_pos hc, if_pos h1]
      congr 1 <;> omega
    · have h1 : ¬ (5 * N.val ≤ j + 1) := by omega
      rw [if_neg hc, if_neg h1]
      congr 1 <;> omega
  · have h1 : ¬ (5 * N.val ≤ j) := by omega
    have h2 : ¬ (5 * N.val ≤ j + 1) := by omega
    rw [if_neg h5, if_neg h1, if_neg h2]
    congr 1 <;> omega

theorem feed_rec_state (s : StreamDebug) (N : Byte) :
    ∀ (records : List Byte) (j : Nat), j + records.length ≤ 5 * N.val →
      feed (rec_state s N j) records = rec_state s N (j + records.length) := by
  intro records
  induction records with
  | nil => intro j _; rfl
  | cons b bs ih =>
    intro j hj
    have hlen : (b :: bs).length = bs.length + 1 := rfl
    rw [feed_cons, step_rec_state s N b j (by omega), ih (j + 1) (by omega), hlen]
    congr 1
    omega

theorem feed_header (s : StreamDebug) (N : Byte) (hs : s.state = State.IDLE)
    (hN : 1 ≤ N.val) : feed s [0xAA, 0x01, N] = rec_state s N 0 := by
  have hN2 := N.isLt
  rw [feed_cons, step_idle_start s 0xAA hs rfl, feed_cons, step_start_version _ 0x01 rfl rfl,
    feed_cons, step_version_count _ N rfl hN, feed_nil]
  simp only [rec_state]
  have h5 : ¬ (5 * N.val ≤ 0) := by omega
  rw [if_neg h5]
  congr 1
  omega

/-! ## A whole frame through the stream debugger -/

/-- The header and the first `j` record bytes. -/
theorem feed_records_upto (s : StreamDebug) (N : Byte) (records : List Byte) (j : Nat)
    (hs : s.state = State.IDLE) (hN : 1 ≤ N.val) (hlen : records.length = 5 * N.val)
    (hj : j ≤ 5 * N.val) :
    feed s ([0xAA, 0x01, N] ++ records.take j) = rec_state s N j := by
  have hl : (records.take j).length = j := by
    rw [List.length_take]; omega
  rw [feed_append, feed_header s N hs hN, feed_rec_state s N _ 0 (by omega), hl]
  congr 1
  omega

/-- The header and all record bytes. -/
theorem feed_records (s : StreamDebug) (N : Byte) (records : List Byte)
    (hs : s.state = State.IDLE) (hN : 1 ≤ N.val) (hlen : records.length = 5 * N.val) :
    feed s ([0xAA, 0x01, N] ++ records) = rec_state s N (5 * N.val) := by
  have h := feed_records_upto s N records (5 * N.val) hs hN hlen (Nat.le_refl _)
  rw [List.take_of_length_le (by omega)] at h
  exact h

theorem rec_state_full (s : StreamDebug) (N : Byte) :
    (rec_state s N (5 * N.val)).state = State.IN_CRC1 := by
  simp only [rec_state]
  rw [if_pos (Nat.le_refl _)]

/-- A well-formed frame with `N ≥ 1`, fed from an idle state, is counted as
one valid packet. -/
theorem feed_wire_frame (s : StreamDebug) (N : Byte) (records : List Byte) (c1 c2 : Byte)
    (hs : s.state = State.IDLE) (hN : 1 ≤ N.val) (hlen : records.length = 5 * N.val) :
    feed s (wire_frame N records c1 c2) = stream_accepted s N := by
  have hN2 := N.isLt
  unfold wire_frame
  rw [feed_append, feed_records s N records hs hN hlen, feed_cons,
    step_crc1 _ c1 (rec_state_full s N), feed_cons, step_crc2 _ c2 rfl, feed_cons,
    step_end_ok _ 0x55 rfl rfl, feed_nil]
  simp only [rec_state, stream_accepted]
  congr 1 <;> omega

/-! ## C11: streaming acceptance -/

/-- C11: for every well-formed frame with `N` in `[1, 255]` (`AA 01 N`, `5 N`
arbitrary record bytes, two arbitrary reserved bytes, `55`), feeding its bytes
one at a time to `processByte` from any state with `state = IDLE` passes
through `GOT_START` (after 1 byte), `GOT_VER` (after 2 bytes), `IN_DATA` (after
the count byte and after each of the first `5 N - 1` record bytes, whatever
their values), `IN_CRC1` (after the last record byte), `IN_CRC2`, `GOT_END`, and
ends in `IDLE` with `valid_packets` incremented by one (mod 2^32),
`invalid_packets` unchanged and `packet_size = 6 + 5 N`. -/
theorem C11_stream_accepts_frame (s : StreamDebug) (N : Byte) (records : List Byte)
    (c1 c2 : Byte) (hs : s.state = State.IDLE) (hN : 1 ≤ N.val)
    (hlen : records.length = 5 * N.val) :
    (feed s [0xAA]).state = State.GOT_START ∧
    (feed s [0xAA, 0x01]).state = State.GOT_VER ∧
    (∀ j, j < 5 * N.val →
      (feed s ([0xAA, 0x01, N] ++ records.take j)).state = State.IN_DATA) ∧
    (feed s ([0xAA, 0x01, N] ++ records)).state = State.IN_CRC1 ∧
    (feed s ([0xAA, 0x01, N] ++ records ++ [c1])).state = State.IN_CRC2 ∧
    (feed s ([0xAA, 0x01, N] ++ records ++ [c1, c2])).state = State.GOT_END ∧
    (feed s (wire_frame N records c1 c2)).state = State.IDLE ∧
    (feed s (wire_frame N records c1 c2)).valid_packets
      = (s.valid_packets + 1) % 4294967296 ∧
    (feed s (wire_frame N records c1 c2)).invalid_packets = s.invalid_packets ∧
    (feed s (wire_frame N records c1 c2)).packet_size = 6 + 5 * N.val := by
  refine ⟨?_, ?_, ?_, ?_, ?_, ?_, ?_, ?_, ?_, ?_⟩
  · rw [feed_cons, step_idle_start s 0xAA hs rfl, feed_nil]
  · rw [feed_cons, step_idle_start s 0xAA hs rfl, feed_cons, step_start_version _ 0x01 rfl rfl,
      feed_nil]
  · intro j hj
    rw [feed_records_upto s N records j hs hN hlen (by omega)]
    simp only [rec_state]
    rw [if_neg (by omega)]
  · rw [feed_records s N records hs hN hlen]
    exact rec_state_full s N
  · rw [feed_append, feed_records s N records hs hN hlen, feed_cons,
      step_crc1 _ c1 (rec_state_full s N), feed_nil]
  · rw [feed_append, feed_records s N records hs hN hlen, feed_cons,
      step_crc1 _ c1 (rec_state_full s N), feed_cons, step_crc2 _ c2 rfl, feed_nil]
  · rw [feed_wire_frame s N records c1 c2 hs hN hlen]; rfl
  · rw [feed_wire_frame s N records c1 c2 hs hN hlen]; rfl
  · rw [feed_wire_frame s N records c1 c2 hs hN hlen]; rfl
  · rw [feed_wire_frame s N records c1 c2 hs hN hlen]; rfl

/-- C11 (witness): scenario 1 (`N = 2`) from the initial globals. -/
theorem C11_stream_accepts_frame_witness :
    (feed idle0 [0xAA]).state = State.GOT_START ∧
    (feed idle0 [0xAA, 0x01]).state = State.GOT_VER ∧
    (∀ j, j < 5 * 2 →
      (feed idle0 ([0xAA, 0x01, 2] ++ scenario1_records.take j)).state = State.IN_DATA) ∧
    (feed idle0 ([0xAA, 0x01, 2] ++ scenario1_records)).state = State.IN_CRC1 ∧
    (feed idle0 ([0xAA, 0x01, 2] ++ scenario1_records ++ [0x00])).state = State.IN_CRC2 ∧
    (feed idle0 ([0xAA, 0x01, 2] ++ scenario1_records ++ [0x00, 0x00])).state
      = State.GOT_END ∧
    (feed idle0 (wire_frame 2 scenario1_records 0x00 0x00)).state = State.IDLE ∧
    (feed idle0 (wire_frame 2 scenario1_records 0x00 0x00)).valid_packets = 1 ∧
    (feed idle0 (wire_frame 2 scenario1_records 0x00 0x00)).invalid_packets = 0 ∧
    (feed idle0 (wire_frame 2 scenario1_records 0x00 0x00)).packet_size = 16 :=
  C11_stream_accepts_frame idle0 2 scenario1_records 0x00 0x00 rfl (by decide) (by rfl)

/-! ## C12: the rejection rule of the stream debugger -/

/-- C12: for every state and byte, a `processByte` step increments
`invalid_packets` (by one, mod 2^32) if and only if (`state = GOT_START` and
`b ≠ 0x01`) or (`state = GOT_VER` and `b = 0`) or (`state = GOT_END` and
`b ≠ 0x55`), and leaves it unchanged otherwise; every incrementing step
leaves `valid_packets` unchanged and ends in `IDLE`; a byte other than `0xAA`
in `IDLE` changes neither the state nor the two packet counters; every count
byte in `1..255` is admitted to `IN_DATA`. -/
theorem C12_stream_rejection_rule (s : StreamDebug) (b : Byte) :
    ((processByte s b).invalid_packets = (s.invalid_packets + 1) % 4294967296 ↔
      ((s.state = State.GOT_START ∧ b.val ≠ 0x01) ∨ (s.state = State.GOT_VER ∧ b.val = 0) ∨
        (s.state = State.GOT_END ∧ b.val ≠ 0x55))) ∧
    (¬ ((s.state = State.GOT_START ∧ b.val ≠ 0x01) ∨ (s.state = State.GOT_VER ∧ b.val = 0) ∨
        (s.state = State.GOT_END ∧ b.val ≠ 0x55)) →
      (processByte s b).invalid_packets = s.invalid_packets) ∧
    (((s.state = State.GOT_START ∧ b.val ≠ 0x01) ∨ (s.state = State.GOT_VER ∧ b.val = 0) ∨
        (s.state = State.GOT_END ∧ b.val ≠ 0x55)) →
      (processByte s b).valid_packets = s.valid_packets ∧
      (processByte s b).state = State.IDLE) ∧
    (s.state = State.IDLE → b.val ≠ 0xAA →
      (processByte s b).state = State.IDLE ∧
      (processByte s b).valid_packets = s.valid_packets ∧
      (processByte s b).invalid_packets = s.invalid_packets) ∧
    (s.state = State.GOT_VER → 1 ≤ b.val →
      (processByte s b).state = State.IN_DATA ∧
      (processByte s b).sensor_count = b.val) := by
  have hne : s.invalid_packets ≠ (s.invalid_packets + 1) % 4294967296 := by omega
  have hb := b.isLt
  cases hst : s.state with
  | IDLE =>
    by_cases h : b.val = 0xAA
    · rw [step_idle_start s b hst h]
      simp [hne, h, hst]
    · rw [step_idle_other s b hst h]
      simp [hne, h, hst]
  | GOT_START =>
    by_cases h : b.val = 0x01
    · rw [step_start_version s b hst h]
      simp [hne, h, hst]
    · rw [step_start_bad s b hst h]
      simp [h, hst]
  | GOT_VER =>
    by_cases h : b.val = 0
    · rw [step_version_zero s b hst h]
      simp [h, hst]
    · rw [step_version_count s b hst (by omega)]
      simp [hne, h, hst]
  | GOT_COUNT =>
    rw [step_count_skip s b hst]
    simp [hne, hst]
  | IN_DATA =>
    rw [step_data s b hst]
    split_ifs <;> simp [hne, hst]
  | IN_CRC1 =>
    rw [step_crc1 s b hst]
    simp [hne, hst]
  | IN_CRC2 =>
    rw [step_crc2 s b hst]
    simp [hne, hst]
  | GOT_END =>
    by_cases h : b.val = 0x55
    · rw [step_end_ok s b hst h]
      simp [hne, h, hst]
    · rw [step_end_bad s b hst h]
      simp [h, hst]

/-! ## C13: streaming against batch decoding -/

/-- Feeding chunk by chunk is feeding the concatenation. -/
theorem feed_chunks_flatten (chunks : List (List Byte)) :
    ∀ s : StreamDebug, feed_chunks s chunks = feed s chunks.flatten := by
  induction chunks with
  | nil => intro s; rfl
  | cons c cs ih =>
    intro s
    have h1 : feed_chunks s (c :: cs) = feed_chunks (feed s c) cs := rfl
    rw [h1, ih, List.flatten_cons, feed_append]

theorem wire_frame_length (N : Byte) (records : List Byte) (c1 c2 : Byte) :
    (wire_frame N records c1 c2).length = 6 + records.length := by
  simp only [wire_frame, List.length_append, List.length_cons, List.length_nil]
  omega

theorem wire_frame_end (N : Byte) (records : List Byte) (c1 c2 : Byte) :
    (wire_frame N records c1 c2)[5 + records.length]? = some 0x55 := by
  unfold wire_frame
  have hl : ([0xAA, 0x01, N] ++ records).length = 3 + records.length := by
    rw [List.length_append]
    rfl
  rw [List.getElem?_append_right (by rw [hl]; omega), hl]
  have e : 5 + records.length - (3 + records.length) = 2 := by omega
  rw [e]
  rfl

/-- The batch decoder accepts every well-formed frame. -/
theorem parse_result_wire_frame (hw : HWMonitor) (millis : Nat) (N : Byte)
    (records : List Byte) (c1 c2 : Byte) (hlen : records.length = 5 * N.val) :
    parse_result hw millis (wire_frame N records c1 c2) =
      (true,
        { hw with
          sensors := decoded (wire_frame N records c1 c2) hw.sensors 0
            (min N.val HW_MAX_SENSORS)
          sensor_count := N.val
          packets_ok := (hw.packets_ok + 1) % 4294967296
          last_update := millis }) :=
  parse_result_accept hw millis _ N
    (by rw [wire_frame_length, hlen])
    (by simp [wire_frame]) (by simp [wire_frame]) (by simp [wire_frame])
    (by rw [← hlen]; exact wire_frame_end N records c1 c2)

/-- C13 (as stated, refuted): the well-formed frame with `N = 0`,
`AA 01 00 00 00 55`, is accepted by `hw_monitor_parse` (with count 0) but the
stream debugger, fed the same bytes from its initial state, counts no valid
packet and one invalid packet. -/
theorem C13_counterexample :
    empty_frame = wire_frame 0 [] 0x00 0x00 ∧
    (∃ m', hw_monitor_parse boot 1000 (some empty_frame) = some (true, m') ∧
      m'.sensor_count = 0) ∧
    (feed idle0 empty_frame).state = State.IDLE ∧
    (feed idle0 empty_frame).valid_packets = 0 ∧
    (feed idle0 empty_frame).invalid_packets = 1 := by
  have h : hw_monitor_parse boot 1000 (some empty_frame)
      = some (parse_result boot 1000 (wire_frame 0 [] 0x00 0x00)) :=
    hw_monitor_parse_eq boot 1000 empty_frame
  rw [parse_result_wire_frame boot 1000 0 [] 0x00 0x00 rfl] at h
  exact ⟨rfl, ⟨_, h, rfl⟩, by decide, by decide, by decide⟩

/-- C13 (amended): for every frame laid out as `AA 01 N`, `N` five-byte
records, two reserved bytes, `55` with `N` in `1..255`, feeding the bytes to
the stream debugger from `IDLE`, split across feed calls at any positions,
accepts the frame (one valid packet counted, none invalid, back in `IDLE`,
count `N`), and a single `hw_monitor_parse` call on the concatenated bytes
accepts it too, with the same count `N`. -/
theorem C13_stream_batch_agree (s : StreamDebug) (hw : HWMonitor) (millis : Nat) (N : Byte)
    (records : List Byte) (c1 c2 : Byte) (chunks : List (List Byte))
    (hs : s.state = State.IDLE) (hN : 1 ≤ N.val) (hlen : records.length = 5 * N.val)
    (hchunks : chunks.flatten = wire_frame N records c1 c2) :
    ((feed_chunks s chunks).state = State.IDLE ∧
      (feed_chunks s chunks).valid_packets = (s.valid_packets + 1) % 4294967296 ∧
      (feed_chunks s chunks).invalid_packets = s.invalid_packets ∧
      (feed_chunks s chunks).sensor_count = N.val) ∧
    ∃ m', hw_monitor_parse hw millis (some chunks.flatten) = some (true, m') ∧
      m'.sensor_count = N.val := by
  constructor
  · rw [feed_chunks_flatten, hchunks, feed_wire_frame s N records c1 c2 hs hN hlen]
    exact ⟨rfl, rfl, rfl, rfl⟩
  · rw [hchunks, hw_monitor_parse_eq, parse_result_wire_frame hw millis N records c1 c2 hlen]
    exact ⟨_, rfl, rfl⟩

/-- C13 (witness): scenario 1 split after byte 3 and after byte 9. -/
theorem C13_stream_batch_agree_witness :
    ((feed_chunks idle0
        [[0xAA, 0x01, 0x02], [0x01, 0x00, 0x00, 0x36, 0x42, 0x20],
          [0x00, 0x00, 0x78, 0x42, 0x00, 0x00, 0x55]]).state = State.IDLE ∧
      (feed_chunks idle0
        [[0xAA, 0x01, 0x02], [0x01, 0x00, 0x00, 0x36, 0x42, 0x20],
          [0x00, 0x00, 0x78, 0x42, 0x00, 0x00, 0x55]]).valid_packets = 1 ∧
      (feed_chunks idle0
        [[0xAA, 0x01, 0x02], [0x01, 0x00, 0x00, 0x36, 0x42, 0x20],
          [0x00, 0x00, 0x78, 0x42, 0x00, 0x00, 0x55]]).invalid_packets = 0 ∧
      (feed_chunks idle0
        [[0xAA, 0x01, 0x02], [0x01, 0x00, 0x00, 0x36, 0x42, 0x20],
          [0x00, 0x00, 0x78, 0x42, 0x00, 0x00, 0x55]]).sensor_count = 2) ∧
    ∃ m', hw_monitor_parse boot 1000
        (some (List.flatten [[0xAA, 0x01, 0x02], [0x01, 0x00, 0x00, 0x36, 0x42, 0x20],
          [0x00, 0x00, 0x78, 0x42, 0x00, 0x00, 0x55]])) = some (true, m') ∧
      m'.sensor_count = 2 :=
  C13_stream_batch_agree idle0 boot 1000 2 scenario1_records 0x00 0x00
    [[0xAA, 0x01, 0x02], [0x01, 0x00, 0x00, 0x36, 0x42, 0x20],
      [0x00, 0x00, 0x78, 0x42, 0x00, 0x00, 0x55]]
    rfl (by decide) (by rfl) (by rfl)

/-! ## C14: the per-slot time stamp -/

/-- Closed form of the loop of `hw_monitor_init` started at `i`. -/
theorem init_loop_eq :
    ∀ (n i : Nat) (s : Fin HW_MAX_SENSORS → hw_sensor_data_t), HW_MAX_SENSORS - i = n →
      init_loop i s = fun j =>
        if i ≤ j.val then { s j with id := 0xFF, value := HW_SENTINEL, valid := false }
        else s j := by
  intro n
  induction n with
  | zero =>
    intro i s hn
    have hi : ¬ i < HW_MAX_SENSORS := by omega
    rw [init_loop, dif_neg hi]
    funext j
    have hj := j.isLt
    rw [if_neg (by omega)]
  | succ n ih =>
    intro i s hn
    have hi : i < HW_MAX_SENSORS := by omega
    rw [init_loop, dif_pos hi, ih (i + 1) _ (by omega)]
    funext j
    by_cases hj : j = ⟨i, hi⟩
    · subst hj
      have h1 : ¬ (i + 1 ≤ i) := by omega
      simp only [if_neg h1, if_pos (Nat.le_refl i), Function.update_same]
    · have hne : j.val ≠ i := fun h => hj (Fin.ext h)
      rw [Function.update_noteq hj]
      by_cases hc : i + 1 ≤ j.val
      · rw [if_pos hc, if_pos (by omega)]
      · rw [if_neg hc, if_neg (by omega)]

/-- Every slot after `hw_monitor_init`. -/
theorem hw_monitor_init_sensors (hw : HWMonitor) (j : Fin HW_MAX_SENSORS) :
    (hw_monitor_init hw).sensors j =
      { id := 0xFF, value := HW_SENTINEL, valid := false, timestamp_ms := 0 } := by
  show init_loop 0 (memset_zero hw).sensors j = _
  rw [init_loop_eq HW_MAX_SENSORS 0 _ rfl]
  simp only [if_pos (Nat.zero_le _)]
  rfl

theorem after_scenario1_eq :
    after_scenario1 =
      { boot with
        sensors := decoded scenario1 boot.sensors 0 (min ((2 : Byte)).val HW_MAX_SENSORS)
        sensor_count := ((2 : Byte)).val
        packets_ok := (boot.packets_ok + 1) % 4294967296
        last_update := 1000 } := by
  unfold after_scenario1
  rw [parse_result_accept boot 1000 scenario1 2 (by decide) (by rfl) (by rfl) (by rfl)
    (by rfl)]

/-- C14 (the code at the failing input): scenario 1 is accepted from the
start-up state at time 1000 and `last_update` becomes 1000; slot 0 gets the id
`0x01`, the value 45.5 and `valid = true`, but its per-slot `timestamp_ms` is
still the 0 of `hw_monitor_init`, not 1000: the loop body of `hw_monitor_parse`
never writes that field. -/
theorem C14_slot_timestamp_not_stamped :
    hw_monitor_parse boot 1000 (some scenario1) = some (true, after_scenario1) ∧
    after_scenario1.last_update = 1000 ∧
    (after_scenario1.sensors ⟨0, by decide⟩).id = 0x01 ∧
    (after_scenario1.sensors ⟨0, by decide⟩).value = 0x42360000 ∧
    (after_scenario1.sensors ⟨0, by decide⟩).valid = true ∧
    (after_scenario1.sensors ⟨0, by decide⟩).timestamp_ms = 0 ∧
    (after_scenario1.sensors ⟨0, by decide⟩).timestamp_ms ≠ 1000 := by
  have hts : (after_scenario1.sensors ⟨0, by decide⟩).timestamp_ms = 0 := by
    rw [after_scenario1_eq]
    show (decoded scenario1 boot.sensors 0 (min ((2 : Byte)).val HW_MAX_SENSORS)
      ⟨0, by decide⟩).timestamp_ms = 0
    rw [decoded_apply_lt _ _ _ _ (by decide)]
    show (boot.sensors ⟨0, by decide⟩).timestamp_ms = 0
    unfold boot
    rw [hw_monitor_init_sensors]
  refine ⟨parse_scenario1, by rw [after_scenario1_eq], by rfl, by rfl, by rfl, hts, ?_⟩
  rw [hts]
  decide

/-! ## C15: initialisation -/

/-- C15: after `hw_monitor_init`, from any prior state, all 64 slots have
`valid = false`, `value = -999.0` and `id = 0xFF`, `sensor_count = 0`,
`packets_ok = packets_err = 0`, `last_update = 0`, `hw_monitor_get(id)` returns
the sentinel for every id (`0xFF` included), and a second `hw_monitor_init`
changes nothing. -/
theorem C15_init_state (hw : HWMonitor) :
    (∀ j : Fin HW_MAX_SENSORS,
      ((hw_monitor_init hw).sensors j).valid = false ∧
      ((hw_monitor_init hw).sensors j).value = HW_SENTINEL ∧
      ((hw_monitor_init hw).sensors j).id = 0xFF) ∧
    (hw_monitor_init hw).sensor_count = 0 ∧
    (hw_monitor_init hw).packets_ok = 0 ∧ (hw_monitor_init hw).packets_err = 0 ∧
    (hw_monitor_init hw).last_update = 0 ∧
    (∀ id : Byte,
      hw_monitor_get (hw_monitor_init hw) id = some (HW_SENTINEL, hw_monitor_init hw)) ∧
    hw_monitor_init (hw_monitor_init hw) = hw_monitor_init hw := by
  refine ⟨?_, rfl, rfl, rfl, rfl, ?_, rfl⟩
  · intro j
    rw [hw_monitor_init_sensors]
    exact ⟨rfl, rfl, rfl⟩
  · intro id
    exact hw_monitor_get_absent _ id (Nat.zero_le _)
      (fun j _ hj => absurd hj (Nat.not_lt_zero j))

/-! ## C16: resynchronisation after garbage -/

/-- Bytes other than the start marker are skipped in `IDLE`: only `total_bytes`
advances. -/
theorem feed_idle_garbage (g : List Byte) :
    ∀ s : StreamDebug, s.state = State.IDLE → (∀ b ∈ g, b.val ≠ 0xAA) →
      (feed s g).state = State.IDLE ∧
      (feed s g).valid_packets = s.valid_packets ∧
      (feed s g).invalid_packets = s.invalid_packets ∧
      (feed s g).total_bytes % 4294967296 = (s.total_bytes + g.length) % 4294967296 := by
  induction g with
  | nil =>
    intro s hs _
    exact ⟨hs, rfl, rfl, rfl⟩
  | cons b bs ih =>
    intro s hs hg
    have hb : b.val ≠ 0xAA := hg b (List.mem_cons_self b bs)
    have hbs : ∀ x ∈ bs, x.val ≠ 0xAA := fun x hx => hg x (List.mem_cons_of_mem b hx)
    rw [feed_cons, step_idle_other s b hs hb]
    obtain ⟨i1, i2, i3, i4⟩ :=
      ih { s with total_bytes := (s.total_bytes + 1) % 4294967296 } hs hbs
    refine ⟨i1, i2, i3, ?_⟩
    rw [i4]
    have hl : (b :: bs).length = bs.length + 1 := rfl
    rw [hl]
    show ((s.total_bytes + 1) % 4294967296 + bs.length) % 4294967296
      = (s.total_bytes + (bs.length + 1)) % 4294967296
    omega

/-- C16: for every byte sequence `g` without a `0xAA` byte and every
well-formed frame `f` with `N` in `[1, 255]`, feeding `g` followed by `f` to
`processByte` from any state with `state = IDLE` ends in `IDLE` with
`valid_packets` incremented by one (mod 2^32), `invalid_packets` unchanged and
`total_bytes` advanced by `|g| + |f|` (mod 2^32). -/
theorem C16_stream_resync_after_garbage (s : StreamDebug) (g : List Byte) (N : Byte)
    (records : List Byte) (c1 c2 : Byte) (hs : s.state = State.IDLE)
    (hg : ∀ b ∈ g, b.val ≠ 0xAA) (hN : 1 ≤ N.val) (hlen : records.length = 5 * N.val) :
    (feed s (g ++ wire_frame N records c1 c2)).state = State.IDLE ∧
    (feed s (g ++ wire_frame N records c1 c2)).valid_packets
      = (s.valid_packets + 1) % 4294967296 ∧
    (feed s (g ++ wire_frame N records c1 c2)).invalid_packets = s.invalid_packets ∧
    (feed s (g ++ wire_frame N records c1 c2)).total_bytes
      = (s.total_bytes + (g.length + (wire_frame N records c1 c2).length)) % 4294967296 := by
  obtain ⟨i1, i2, i3, i4⟩ := feed_idle_garbage g s hs hg
  rw [feed_append, feed_wire_frame (feed s g) N records c1 c2 i1 hN hlen, wire_frame_length,
    hlen]
  refine ⟨rfl, ?_, i3, ?_⟩
  · show ((feed s g).valid_packets + 1) % 4294967296 = (s.valid_packets + 1) % 4294967296
    rw [i2]
  · show ((feed s g).total_bytes + (6 + 5 * N.val)) % 4294967296
      = (s.total_bytes + (g.length + (6 + 5 * N.val))) % 4294967296
    omega

/-- C16 (witness): the garbage `00 55 01` followed by scenario 1, from the
initial globals: one valid packet, no invalid packet, 19 bytes seen. -/
theorem C16_stream_resync_after_garbage_witness :
    (feed idle0 ([0x00, 0x55, 0x01] ++ wire_frame 2 scenario1_records 0x00 0x00)).state
      = State.IDLE ∧
    (feed idle0 ([0x00, 0x55, 0x01] ++ wire_frame 2 scenario1_records 0x00 0x00)).valid_packets
      = 1 ∧
    (feed idle0 ([0x00, 0x55, 0x01] ++ wire_frame 2 scenario1_records 0x00 0x00)).invalid_packets
      = 0 ∧
    (feed idle0 ([0x00, 0x55, 0x01] ++ wire_frame 2 scenario1_records 0x00 0x00)).total_bytes
      = 19 :=
  C16_stream_resync_after_garbage idle0 [0x00, 0x55, 0x01] 2 scenario1_records 0x00 0x00 rfl
    (by simp; decide) (by decide) (by rfl)

/-! ## C17: a stray start marker -/

/-- C17: the well-formed frame `AA 01 01 | 01 00 00 36 42 | 00 00 | 55`
(`N = 1`) is swallowed by a stray start marker: from every state with
`state = IDLE`, after the stray `0xAA` and the start byte of the frame the
debugger is back in `IDLE` with `invalid_packets` incremented (the start byte
is taken as a bad version byte), and after the whole frame `valid_packets` is
unchanged and `invalid_packets` is incremented by one (mod 2^32). -/
theorem C17_stray_start_swallows_frame :
    ∃ (N : Byte) (records : List Byte) (c1 c2 : Byte),
      1 ≤ N.val ∧ records.length = 5 * N.val ∧
      wire_frame N records c1 c2 = one_record_frame ∧
      ∀ s : StreamDebug, s.state = State.IDLE →
        (feed s [0xAA]).state = State.GOT_START ∧
        (feed s [0xAA, 0xAA]).state = State.IDLE ∧
        (feed s [0xAA, 0xAA]).invalid_packets = (s.invalid_packets + 1) % 4294967296 ∧
        (feed s (0xAA :: one_record_frame)).state = State.IDLE ∧
        (feed s (0xAA :: one_record_frame)).valid_packets = s.valid_packets ∧
        (feed s (0xAA :: one_record_frame)).invalid_packets
          = (s.invalid_packets + 1) % 4294967296 := by
  refine ⟨0x01, [0x01, 0x00, 0x00, 0x36, 0x42], 0x00, 0x00, by decide, by rfl, by rfl, ?_⟩
  intro s hs
  have h2 : feed s [0xAA, 0xAA] =
      { s with
        total_bytes := ((s.total_bytes + 1) % 4294967296 + 1) % 4294967296
        packet_size := (1 + 1) % 4294967296
        state := State.IDLE
        invalid_packets := (s.invalid_packets + 1) % 4294967296 } := by
    rw [feed_cons, step_idle_start s 0xAA hs rfl, feed_cons,
      step_start_bad _ 0xAA rfl (by decide), feed_nil]
  have hrest : feed s (0xAA :: one_record_frame)
      = feed (feed s [0xAA, 0xAA])
          [0x01, 0x01, 0x01, 0x00, 0x00, 0x36, 0x42, 0x00, 0x00, 0x55] := by
    rw [← feed_append]
    rfl
  obtain ⟨i1, i2, i3, _⟩ :=
    feed_idle_garbage [0x01, 0x01, 0x01, 0x00, 0x00, 0x36, 0x42, 0x00, 0x00, 0x55]
      (feed s [0xAA, 0xAA]) (by rw [h2]) (by simp; decide)
  refine ⟨?_, by rw [h2], by rw [h2], ?_, ?_, ?_⟩
  · rw [feed_cons, step_idle_start s 0xAA hs rfl, feed_nil]
  · rw [hrest, i1]
  · rw [hrest, i2, h2]
  · rw [hrest, i3, h2]

/-! ## C18: bytes after the first frame -/

/-- The outcome of the batch decoder depends only on the first `6 + 5 N` bytes,
provided the buffer has them. -/
theorem parse_result_first_frame (hw : HWMonitor) (millis : Nat) (d1 d2 : List Byte)
    (hl1 : 6 + 5 * (d1.getD 2 0).val ≤ d1.length)
    (hl2 : 6 + 5 * (d1.getD 2 0).val ≤ d2.length)
    (hk : ∀ k, k < 6 + 5 * (d1.getD 2 0).val → d2.getD k 0 = d1.getD k 0) :
    parse_result hw millis d2 = parse_result hw millis d1 := by
  have e0 := hk 0 (by omega)
  have e1 := hk 1 (by omega)
  have e2 := hk 2 (by omega)
  have ee := hk (5 + 5 * (d1.getD 2 0).val) (by omega)
  have edec : decoded d2 hw.sensors 0 (min (d1.getD 2 0).val HW_MAX_SENSORS)
      = decoded d1 hw.sensors 0 (min (d1.getD 2 0).val HW_MAX_SENSORS) := by
    funext j
    by_cases hj : j.val < min (d1.getD 2 0).val HW_MAX_SENSORS
    · have hjN : j.val < (d1.getD 2 0).val := lt_of_lt_of_le hj (Nat.min_le_left _ _)
      rw [decoded_apply_lt d2 _ _ j hj, decoded_apply_lt d1 _ _ j hj]
      unfold decoded_slot
      rw [hk (3 + 5 * j.val) (by omega), hk (4 + 5 * j.val) (by omega),
        hk (5 + 5 * j.val) (by omega), hk (6 + 5 * j.val) (by omega),
        hk (7 + 5 * j.val) (by omega)]
    · rw [decoded_apply_ge d2 _ _ j (by omega), decoded_apply_ge d1 _ _ j (by omega)]
  have a1 : ¬ d1.length < 6 := by omega
  have a2 : ¬ d2.length < 6 := by omega
  have b1 : ¬ d1.length < 6 + 5 * (d1.getD 2 0).val := by omega
  have b2 : ¬ d2.length < 6 + 5 * (d1.getD 2 0).val := by omega
  unfold parse_result
  rw [e0, e1, e2, ee, edec, if_neg a1, if_neg a2, if_neg b1, if_neg b2]

/-- C18: for every prior state, every buffer `d` with `len(d) ≥ 6 + 5 * d[2]`
and every byte sequence `s`, `hw_monitor_parse` on `d` followed by `s` returns
the same result and leaves the same state as on the first `6 + 5 * d[2]` bytes
of `d`: bytes after the end marker are never examined. -/
theorem C18_parse_ignores_trailing_bytes (hw : HWMonitor) (millis : Nat) (d s : List Byte)
    (N : Byte) (h2 : d[2]? = some N) (hlen : 6 + 5 * N.val ≤ d.length) :
    hw_monitor_parse hw millis (some (d ++ s))
      = hw_monitor_parse hw millis (some (d.take (6 + 5 * N.val))) := by
  have g2 := getD_of_getElem? d 2 N h2
  have hA : parse_result hw millis (d ++ s) = parse_result hw millis d := by
    apply parse_result_first_frame hw millis d (d ++ s) (by rw [g2]; exact hlen)
      (by rw [g2, List.length_append]; omega)
    intro k hk
    rw [g2] at hk
    rw [List.getD_eq_getElem?_getD, List.getD_eq_getElem?_getD,
      List.getElem?_append_left (by omega)]
  have hB : parse_result hw millis (d.take (6 + 5 * N.val)) = parse_result hw millis d := by
    apply parse_result_first_frame hw millis d (d.take (6 + 5 * N.val)) (by rw [g2]; exact hlen)
      (by rw [g2, List.length_take]; omega)
    intro k hk
    rw [g2] at hk
    rw [List.getD_eq_getElem?_getD, List.getD_eq_getElem?_getD,
      List.getElem?_take_of_lt hk]
  rw [hw_monitor_parse_eq, hw_monitor_parse_eq, hA, hB]

/-- C18 (witness): a buffer holding scenario 1 followed by a second frame
commits only scenario 1. -/
theorem C18_parse_ignores_trailing_bytes_witness :
    hw_monitor_parse boot 1000 (some (scenario1 ++ one_record_frame))
        = hw_monitor_parse boot 1000 (some (scenario1.take (6 + 5 * 2))) ∧
    hw_monitor_parse boot 1000 (some (scenario1.take (6 + 5 * 2)))
        = some (true, after_scenario1) :=
  ⟨C18_parse_ignores_trailing_bytes boot 1000 scenario1 one_record_frame 2 (by rfl)
      (by decide),
    parse_scenario1⟩

end HWMon
